import Mathlib

/-!
# HackRF host library (host/libhackrf/src/hackrf.c)

A shallow embedding of the streaming engine, the completion dispatcher, the
session start/stop operations, the register writes, the baseband filter
bandwidth selector and the frequency split of `hackrf.c`, followed by theorems
about them.

Conventions of the embedding

* The process-wide variable `do_exit` and the session record live together in
  a `World`.  The calls that leave the library once a session is open (control
  transfers, submissions, cancellations, event processing, thread creation and
  join, the user's sample callback) are appended to `World.calls`, in program
  order.
* What the outside returns to the library (the result of a control transfer,
  of a submission, of `pthread_create` and `pthread_join`, the value returned
  by the sample callback) is an explicit argument of the function that makes
  the call.
* Pointers are `Option`s: `none` is `NULL`.  A pool unit is identified by its
  slot number in `device->transfers`.
-/

namespace Hackrf

/-! ## Data model -/

/-- Modelled from the spec: `enum hackrf_error` is declared in `hackrf.h`,
which is not among the sources.  Its members are the case labels of the
switch in `hackrf_error_name` (labels of one switch are pairwise distinct). -/
inductive hackrf_error
  | HACKRF_SUCCESS
  | HACKRF_TRUE
  | HACKRF_ERROR_INVALID_PARAM
  | HACKRF_ERROR_NOT_FOUND
  | HACKRF_ERROR_BUSY
  | HACKRF_ERROR_NO_MEM
  | HACKRF_ERROR_LIBUSB
  | HACKRF_ERROR_THREAD
  | HACKRF_ERROR_STREAMING_THREAD_ERR
  | HACKRF_ERROR_STREAMING_STOPPED
  | HACKRF_ERROR_STREAMING_EXIT_CALLED
  | HACKRF_ERROR_OTHER
  deriving DecidableEq, Repr

open hackrf_error

/-- The completion status libusb stores in `usb_transfer->status`; the members
are the ones the dispatcher's comment lists next to `LIBUSB_TRANSFER_COMPLETED`. -/
inductive libusb_transfer_status
  | LIBUSB_TRANSFER_COMPLETED
  | LIBUSB_TRANSFER_ERROR
  | LIBUSB_TRANSFER_TIMED_OUT
  | LIBUSB_TRANSFER_CANCELLED
  | LIBUSB_TRANSFER_STALL
  | LIBUSB_TRANSFER_NO_DEVICE
  | LIBUSB_TRANSFER_OVERFLOW
  deriving DecidableEq, Repr

open libusb_transfer_status

/-- `HACKRF_VENDOR_REQUEST_SET_TRANSCEIVER_MODE = 1`. -/
def HACKRF_VENDOR_REQUEST_SET_TRANSCEIVER_MODE : Nat := 1

/-- `HACKRF_VENDOR_REQUEST_SET_FREQ = 16`. -/
def HACKRF_VENDOR_REQUEST_SET_FREQ : Nat := 16

/-- `HACKRF_TRANSCEIVER_MODE_OFF = 0`. -/
def HACKRF_TRANSCEIVER_MODE_OFF : Nat := 0

/-- `HACKRF_TRANSCEIVER_MODE_RECEIVE = 1`. -/
def HACKRF_TRANSCEIVER_MODE_RECEIVE : Nat := 1

/-- `HACKRF_TRANSCEIVER_MODE_TRANSMIT = 2`. -/
def HACKRF_TRANSCEIVER_MODE_TRANSMIT : Nat := 2

/-- The direction bit `LIBUSB_ENDPOINT_IN` of libusb (0x80). -/
def LIBUSB_ENDPOINT_IN : Nat := 0x80

/-- The direction bit `LIBUSB_ENDPOINT_OUT` of libusb (0x00). -/
def LIBUSB_ENDPOINT_OUT : Nat := 0x00

/-- The fields of a `struct libusb_transfer` that `hackrf.c` writes: the
endpoint, whether `buffer` is not `NULL`, the buffer length, and whether the
completion callback is `hackrf_libusb_transfer_callback` (`false` is the
`NULL` given to `libusb_fill_bulk_transfer`). -/
structure libusb_transfer where
  endpoint : Nat
  buffer : Bool
  length : Nat
  callback : Bool
  deriving DecidableEq, Repr

/-- The record `struct hackrf_device`.  `transfers` is `NULL` (`none`) or an
array of `transfer_count` slots, each `NULL` or a transfer; function pointers
and the two user contexts are opaque numbers. -/
structure hackrf_device where
  transfers : Option (List (Option libusb_transfer))
  callback : Option Nat
  transfer_thread_started : Bool
  transfer_count : Nat
  buffer_size : Nat
  streaming : Bool
  rx_ctx : Option Nat
  tx_ctx : Option Nat
  deriving DecidableEq, Repr

/-- The record `hackrf_transfer` handed to the sample callback. -/
structure hackrf_transfer where
  buffer_length : Nat
  valid_length : Nat
  rx_ctx : Option Nat
  tx_ctx : Option Nat
  deriving DecidableEq, Repr

/-- A call that leaves the library.  A control transfer is recorded with its
request code, its two 16-bit parameters and the words of its data buffer. -/
inductive Call
  | control_transfer (request : Nat) (value : Nat) (index : Nat) (data : List Nat)
  | submit_transfer (unit : Nat)
  | cancel_transfer (unit : Nat)
  | sample_callback (unit : Nat) (transfer : hackrf_transfer) (ret : Int)
  | handle_events
  | pthread_create
  | pthread_join
  deriving DecidableEq, Repr

/-- The session, the process-wide `do_exit`, and the calls made so far. -/
structure World where
  device : hackrf_device
  do_exit : Bool
  calls : List Call
  deriving DecidableEq, Repr

/-- Append one outgoing call to the record. -/
def World.call (w : World) (c : Call) : World :=
  { w with calls := w.calls ++ [c] }

/-! ## Streaming engine -/

/-- `request_exit`: `do_exit = true`. -/
def request_exit (w : World) : World :=
  { w with do_exit := true }

/-- The loop of `cancel_transfers` from slot `unit` on: every slot that is not
`NULL` gets a `libusb_cancel_transfer`. -/
def cancel_transfers_loop : List (Option libusb_transfer) → Nat → World → World
  | [], _, w => w
  | none :: rest, unit, w => cancel_transfers_loop rest (unit + 1) w
  | some _ :: rest, unit, w =>
      cancel_transfers_loop rest (unit + 1) (w.call (Call.cancel_transfer unit))

/-- `cancel_transfers`. -/
def cancel_transfers (w : World) : hackrf_error × World :=
  match w.device.transfers with
  | some transfers => (HACKRF_SUCCESS, cancel_transfers_loop transfers 0 w)
  | none => (HACKRF_ERROR_OTHER, w)

/-- One completion notification as the transport delivers it: the unit, its
`status`, `length` and `actual_length`, together with what the outside answers
during the dispatch: `cb_ret` is the value `device->callback(&transfer)`
returns and `submit_ret` the value `libusb_submit_transfer` returns, each used
only if the dispatcher makes that call. -/
structure Completion where
  unit : Nat
  status : libusb_transfer_status
  length : Nat
  actual_length : Nat
  cb_ret : Int
  submit_ret : Int
  deriving DecidableEq, Repr

/-- `hackrf_libusb_transfer_callback`, the completion dispatcher. -/
def hackrf_libusb_transfer_callback (c : Completion) (w : World) : World :=
  if c.status = LIBUSB_TRANSFER_COMPLETED then
    let transfer : hackrf_transfer :=
      { buffer_length := c.length
        valid_length := c.actual_length
        rx_ctx := w.device.rx_ctx
        tx_ctx := w.device.tx_ctx }
    let w1 := w.call (Call.sample_callback c.unit transfer c.cb_ret)
    if c.cb_ret = 0 then
      let w2 := w1.call (Call.submit_transfer c.unit)
      if c.submit_ret < 0 then
        request_exit w2
      else
        w2
    else
      request_exit w1
  else
    request_exit w

/-- `hackrf_is_streaming`; it only reads. -/
def hackrf_is_streaming (w : World) : hackrf_error × World :=
  if w.device.transfer_thread_started = true ∧ w.device.streaming = true ∧ w.do_exit = false then
    (HACKRF_TRUE, w)
  else if w.device.transfer_thread_started = false then
    (HACKRF_ERROR_STREAMING_THREAD_ERR, w)
  else if w.device.streaming = false then
    (HACKRF_ERROR_STREAMING_STOPPED, w)
  else
    (HACKRF_ERROR_STREAMING_EXIT_CALLED, w)

/-- The loop of `prepare_transfers` from slot `unit` on.  `submit unit` is the
value `libusb_submit_transfer` returns for that slot.  The slots are
dereferenced unchecked: a `NULL` slot has no defined behaviour (`none`). -/
def prepare_transfers_loop (submit : Nat → Int) (endpoint_address : Nat) :
    List (Option libusb_transfer) → Nat → World →
      Option (hackrf_error × List (Option libusb_transfer) × World)
  | [], _, w => some (HACKRF_SUCCESS, [], w)
  | none :: _, _, _ => none
  | some t :: rest, unit, w =>
      let t1 : libusb_transfer := { t with endpoint := endpoint_address, callback := true }
      let w1 := w.call (Call.submit_transfer unit)
      if submit unit ≠ 0 then
        some (HACKRF_ERROR_LIBUSB, some t1 :: rest, w1)
      else
        match prepare_transfers_loop submit endpoint_address rest (unit + 1) w1 with
        | none => none
        | some (r, rest1, w2) => some (r, some t1 :: rest1, w2)

/-- `prepare_transfers`. -/
def prepare_transfers (submit : Nat → Int) (endpoint_address : Nat) (w : World) :
    Option (hackrf_error × World) :=
  match w.device.transfers with
  | some transfers =>
      match prepare_transfers_loop submit endpoint_address transfers 0 w with
      | none => none
      | some (r, transfers1, w1) =>
          some (r, { w1 with device := { w1.device with transfers := some transfers1 } })
  | none => some (HACKRF_ERROR_OTHER, w)

/-- One call of `libusb_handle_events_timeout` by the worker: the transport
dispatches the completion callback once for each unit in `batch`, in order,
on the calling thread. -/
def libusb_handle_events_timeout (batch : List Completion) (w : World) : World :=
  batch.foldl (fun w1 c => hackrf_libusb_transfer_callback c w1) (w.call Call.handle_events)

/-- `transfer_threadproc`, the worker.  The list holds, for each successive
call of `libusb_handle_events_timeout`, the completions it dispatches and the
value it returns; when the list is used up the run stops where it is (a
prefix of the worker's execution). -/
def transfer_threadproc : List (List Completion × Int) → World → World
  | [], w => w
  | (batch, error) :: rest, w =>
      if w.device.streaming = true ∧ w.do_exit = false then
        let w1 := libusb_handle_events_timeout batch w
        let w2 : World :=
          if error ≠ 0 then { w1 with device := { w1.device with streaming := false } } else w1
        transfer_threadproc rest w2
      else
        w

/-- `kill_transfer_thread`; `join_result` is the value `pthread_join` returns. -/
def kill_transfer_thread (join_result : Int) (w : World) : hackrf_error × World :=
  let w1 := request_exit w
  if w1.device.transfer_thread_started ≠ false then
    let w2 := w1.call Call.pthread_join
    if join_result ≠ 0 then
      (HACKRF_ERROR_THREAD, w2)
    else
      let w3 : World := { w2 with device := { w2.device with transfer_thread_started := false } }
      (HACKRF_SUCCESS, (cancel_transfers w3).2)
  else
    (HACKRF_SUCCESS, w1)

/-- `create_transfer_thread`; `create_result` is the value `pthread_create`
returns. -/
def create_transfer_thread (submit : Nat → Int) (create_result : Int)
    (endpoint_address : Nat) (callback : Option Nat) (w : World) :
    Option (hackrf_error × World) :=
  if w.device.transfer_thread_started = false then
    let w1 : World := { w with device := { w.device with streaming := false } }
    match prepare_transfers submit endpoint_address w1 with
    | none => none
    | some (result, w2) =>
        if result ≠ HACKRF_SUCCESS then
          some (result, w2)
        else
          let w3 : World :=
            { w2 with device := { w2.device with streaming := true, callback := callback } }
          let w4 := w3.call Call.pthread_create
          if create_result = 0 then
            some (HACKRF_SUCCESS,
              { w4 with device := { w4.device with transfer_thread_started := true } })
          else
            some (HACKRF_ERROR_THREAD, w4)
  else
    some (HACKRF_ERROR_BUSY, w)

/-! ## Session operations -/

/-- `hackrf_set_transceiver_mode`; `usb_result` is the value
`libusb_control_transfer` returns. -/
def hackrf_set_transceiver_mode (usb_result : Int) (value : Nat) (w : World) :
    hackrf_error × World :=
  let w1 := w.call (Call.control_transfer HACKRF_VENDOR_REQUEST_SET_TRANSCEIVER_MODE value 0 [])
  if usb_result ≠ 0 then (HACKRF_ERROR_LIBUSB, w1) else (HACKRF_SUCCESS, w1)

/-- `hackrf_start_rx`. -/
def hackrf_start_rx (usb_result : Int) (submit : Nat → Int) (create_result : Int)
    (callback : Option Nat) (rx_ctx : Option Nat) (w : World) : Option (hackrf_error × World) :=
  let endpoint_address := LIBUSB_ENDPOINT_IN ||| 1
  let (result, w1) := hackrf_set_transceiver_mode usb_result HACKRF_TRANSCEIVER_MODE_RECEIVE w
  if result = HACKRF_SUCCESS then
    let w2 : World := { w1 with device := { w1.device with rx_ctx := rx_ctx } }
    create_transfer_thread submit create_result endpoint_address callback w2
  else
    some (result, w1)

/-- `hackrf_stop_rx`. -/
def hackrf_stop_rx (join_result : Int) (usb_result : Int) (w : World) : hackrf_error × World :=
  let (result1, w1) := kill_transfer_thread join_result w
  let (result2, w2) := hackrf_set_transceiver_mode usb_result HACKRF_TRANSCEIVER_MODE_OFF w1
  if result2 ≠ HACKRF_SUCCESS then (result2, w2) else (result1, w2)

/-- `hackrf_start_tx`. -/
def hackrf_start_tx (usb_result : Int) (submit : Nat → Int) (create_result : Int)
    (callback : Option Nat) (tx_ctx : Option Nat) (w : World) : Option (hackrf_error × World) :=
  let endpoint_address := LIBUSB_ENDPOINT_OUT ||| 2
  let (result, w1) := hackrf_set_transceiver_mode usb_result HACKRF_TRANSCEIVER_MODE_TRANSMIT w
  if result = HACKRF_SUCCESS then
    let w2 : World := { w1 with device := { w1.device with tx_ctx := tx_ctx } }
    create_transfer_thread submit create_result endpoint_address callback w2
  else
    some (result, w1)

/-- `hackrf_stop_tx`. -/
def hackrf_stop_tx (join_result : Int) (usb_result : Int) (w : World) : hackrf_error × World :=
  let (result1, w1) := kill_transfer_thread join_result w
  let (result2, w2) := hackrf_set_transceiver_mode usb_result HACKRF_TRANSCEIVER_MODE_OFF w1
  if result2 ≠ HACKRF_SUCCESS then (result2, w2) else (result1, w2)

/-! ## Opening a session -/

/-- What the outside answers during `hackrf_open`: whether the `device`
argument is not `NULL`, whether a device was found, the values returned by
`libusb_set_configuration` and `libusb_claim_interface`, whether each
allocation succeeds, and the indeterminate contents the fresh record has in
the two context fields, which `hackrf_open` does not initialise. -/
structure OpenEnv where
  device_arg : Bool
  usb_device : Bool
  set_configuration : Int
  claim_interface : Int
  malloc_device : Bool
  rx_ctx : Option Nat
  tx_ctx : Option Nat
  calloc_transfers : Bool
  alloc_transfer : Nat → Bool
  malloc_buffer : Nat → Bool

/-- The loop of `allocate_transfers` over the `n` slots from `unit` on; the
array comes zeroed from `calloc`, so the slots not reached stay `NULL`. -/
def allocate_transfers_loop (alloc_transfer malloc_buffer : Nat → Bool) (buffer_size : Nat) :
    Nat → Nat → hackrf_error × List (Option libusb_transfer)
  | 0, _ => (HACKRF_SUCCESS, [])
  | n + 1, unit =>
      if alloc_transfer unit = false then
        (HACKRF_ERROR_LIBUSB, List.replicate (n + 1) none)
      else
        let t : libusb_transfer :=
          { endpoint := 0, buffer := malloc_buffer unit, length := buffer_size, callback := false }
        if t.buffer = false then
          (HACKRF_ERROR_NO_MEM, some t :: List.replicate n none)
        else
          let r := allocate_transfers_loop alloc_transfer malloc_buffer buffer_size n (unit + 1)
          (r.1, some t :: r.2)

/-- `allocate_transfers`. -/
def allocate_transfers (env : OpenEnv) (d : hackrf_device) : hackrf_error × hackrf_device :=
  match d.transfers with
  | none =>
      if env.calloc_transfers = false then
        (HACKRF_ERROR_NO_MEM, d)
      else
        let r := allocate_transfers_loop env.alloc_transfer env.malloc_buffer d.buffer_size
          d.transfer_count 0
        (r.1, { d with transfers := some r.2 })
  | some _ => (HACKRF_ERROR_BUSY, d)

/-- `hackrf_open`: the error code, the session stored through `device` (if
any) and the value of `do_exit` afterwards. -/
def hackrf_open (env : OpenEnv) (do_exit : Bool) : hackrf_error × Option hackrf_device × Bool :=
  if env.device_arg = false then
    (HACKRF_ERROR_INVALID_PARAM, none, do_exit)
  else if env.usb_device = false then
    (HACKRF_ERROR_NOT_FOUND, none, do_exit)
  else if env.set_configuration ≠ 0 then
    (HACKRF_ERROR_LIBUSB, none, do_exit)
  else if env.claim_interface ≠ 0 then
    (HACKRF_ERROR_LIBUSB, none, do_exit)
  else if env.malloc_device = false then
    (HACKRF_ERROR_NO_MEM, none, do_exit)
  else
    let lib_device : hackrf_device :=
      { transfers := none
        callback := none
        transfer_thread_started := false
        transfer_count := 4
        buffer_size := 262144
        streaming := false
        rx_ctx := env.rx_ctx
        tx_ctx := env.tx_ctx }
    let r := allocate_transfers env lib_device
    if r.1 ≠ HACKRF_SUCCESS then
      (HACKRF_ERROR_NO_MEM, none, false)
    else
      (HACKRF_SUCCESS, some r.2, false)

/-! ## Baseband filter bandwidth selector -/

/-- The table `max2837_ft` (its `bandwidth_hz` fields), ending in the 0 entry. -/
def max2837_ft : List Nat :=
  [1750000, 2500000, 3500000, 5000000, 5500000, 6000000, 7000000, 8000000,
   9000000, 10000000, 12000000, 14000000, 15000000, 20000000, 24000000, 28000000, 0]

/-- The scan both selectors start with.  The pointer `p` is the pair of its
index and the part of the table from that index on; the result is the index
at which the loop stops, or `none` if the loop reads past the last entry. -/
def max2837_ft_scan (bandwidth_hz : Nat) : List Nat → Nat → Option Nat
  | [], _ => none
  | bw :: rest, p =>
      if bw ≠ 0 then
        if bw ≥ bandwidth_hz then some p else max2837_ft_scan bandwidth_hz rest (p + 1)
      else
        some p

/-- `hackrf_compute_baseband_filter_bw_round_down_lt`; `none` stands for a
read outside the table. -/
def hackrf_compute_baseband_filter_bw_round_down_lt (bandwidth_hz : Nat) : Option Nat :=
  match max2837_ft_scan bandwidth_hz max2837_ft 0 with
  | none => none
  | some p =>
      let p1 := if p ≠ 0 then p - 1 else p
      max2837_ft[p1]?

/-- `hackrf_compute_baseband_filter_bw`; `none` stands for a read outside the
table. -/
def hackrf_compute_baseband_filter_bw (bandwidth_hz : Nat) : Option Nat :=
  match max2837_ft_scan bandwidth_hz max2837_ft 0 with
  | none => none
  | some p =>
      if p ≠ 0 then
        match max2837_ft[p]? with
        | none => none
        | some bw => if bw > bandwidth_hz then max2837_ft[p - 1]? else some bw
      else
        max2837_ft[p]?

/-! ## Frequency -/

/-- `FREQ_ONE_MHZ`. -/
def FREQ_ONE_MHZ : Nat := 1000 * 1000

/-- The record `set_freq_params_t`. -/
structure set_freq_params_t where
  freq_mhz : Nat
  freq_hz : Nat
  deriving DecidableEq, Repr

/-- The conversion at the head of `hackrf_set_freq`: `freq_hz` is a `uint64_t`,
the two casts keep the low 32 bits, the product and the difference are taken
in 64 bits. -/
def hackrf_set_freq_params (freq_hz : Nat) : set_freq_params_t :=
  let l_freq_mhz := (freq_hz / FREQ_ONE_MHZ) % 2 ^ 32
  let product := (l_freq_mhz * FREQ_ONE_MHZ) % 2 ^ 64
  let l_freq_hz := ((freq_hz + (2 ^ 64 - product)) % 2 ^ 64) % 2 ^ 32
  { freq_mhz := l_freq_mhz, freq_hz := l_freq_hz }

/-- `hackrf_set_freq`; `usb_result` is the value `libusb_control_transfer`
returns, `length` is `sizeof(set_freq_params_t)`, two 32-bit words. -/
def hackrf_set_freq (usb_result : Int) (freq_hz : Nat) (w : World) : hackrf_error × World :=
  let set_freq_params := hackrf_set_freq_params freq_hz
  let length : Int := 8
  let w1 := w.call (Call.control_transfer HACKRF_VENDOR_REQUEST_SET_FREQ 0 0
    [set_freq_params.freq_mhz, set_freq_params.freq_hz])
  if usb_result < length then (HACKRF_ERROR_LIBUSB, w1) else (HACKRF_SUCCESS, w1)

/-! ## Reading the record of calls -/

/-- The calls made between the world `w` and a later world `w1`. -/
def calls_since (w w1 : World) : List Call :=
  w1.calls.drop w.calls.length

/-- Is the call an invocation of the sample callback? -/
def Call.is_sample_callback : Call → Bool
  | Call.sample_callback _ _ _ => true
  | _ => false

/-- Is the call a (re)submission of a unit? -/
def Call.is_submit : Call → Bool
  | Call.submit_transfer _ => true
  | _ => false

/-- Is the call a cancellation request? -/
def Call.is_cancel : Call → Bool
  | Call.cancel_transfer _ => true
  | _ => false

/-- The cancellation requests `cancel_transfers_loop` makes for the slots
from `unit` on: one for each slot that is not `NULL`. -/
def cancel_calls : List (Option libusb_transfer) → Nat → List Call
  | [], _ => []
  | none :: rest, unit => cancel_calls rest (unit + 1)
  | some _ :: rest, unit => Call.cancel_transfer unit :: cancel_calls rest (unit + 1)

/-! ## Concrete sessions used as inputs -/

/-- An environment in which every step of `hackrf_open` succeeds. -/
def open_env : OpenEnv :=
  { device_arg := true
    usb_device := true
    set_configuration := 0
    claim_interface := 0
    malloc_device := true
    rx_ctx := none
    tx_ctx := none
    calloc_transfers := true
    alloc_transfer := fun _ => true
    malloc_buffer := fun _ => true }

/-- A pool unit as `allocate_transfers` leaves it. -/
def idle_unit : libusb_transfer :=
  { endpoint := 0, buffer := true, length := 262144, callback := false }

/-- A pool unit as `prepare_transfers` leaves it for the receive endpoint. -/
def rx_unit : libusb_transfer :=
  { endpoint := 0x81, buffer := true, length := 262144, callback := true }

/-- The session right after a successful `hackrf_open`. -/
def opened_world : World :=
  { device :=
      { transfers := some [some idle_unit, some idle_unit, some idle_unit, some idle_unit]
        callback := none
        transfer_thread_started := false
        transfer_count := 4
        buffer_size := 262144
        streaming := false
        rx_ctx := none
        tx_ctx := none }
    do_exit := false
    calls := [] }

/-- The session after a successful `hackrf_start_rx` with callback 7 and
receive context 1 on `opened_world`. -/
def streaming_world : World :=
  { device :=
      { transfers := some [some rx_unit, some rx_unit, some rx_unit, some rx_unit]
        callback := some 7
        transfer_thread_started := true
        transfer_count := 4
        buffer_size := 262144
        streaming := true
        rx_ctx := some 1
        tx_ctx := none }
    do_exit := false
    calls :=
      [Call.control_transfer 1 1 0 [], Call.submit_transfer 0, Call.submit_transfer 1,
       Call.submit_transfer 2, Call.submit_transfer 3, Call.pthread_create] }

/-- Is the call an entry of the worker into `libusb_handle_events_timeout`? -/
def Call.is_handle_events : Call → Bool
  | Call.handle_events => true
  | _ => false

/-- Is the call an invocation of the sample callback that returned non-zero? -/
def Call.is_stop : Call → Bool
  | Call.sample_callback _ _ ret => decide (ret ≠ 0)
  | _ => false

/-- Does no call satisfying `p` come after the first invocation of the sample
callback that returned non-zero? -/
def none_after_stop (p : Call → Bool) : List Call → Bool
  | [] => true
  | c :: rest => if c.is_stop then rest.all (fun x => !p x) else none_after_stop p rest

/-- A completed unit whose sample callback asks to stop. -/
def completion_stop : Completion :=
  { unit := 0, status := LIBUSB_TRANSFER_COMPLETED, length := 262144, actual_length := 262144,
    cb_ret := 1, submit_ret := 0 }

/-- A completed unit whose sample callback asks to continue. -/
def completion_continue : Completion :=
  { unit := 1, status := LIBUSB_TRANSFER_COMPLETED, length := 262144, actual_length := 262144,
    cb_ret := 0, submit_ret := 0 }

/-! ## Sequences of operations on one session -/

/-- One step taken on the session after it was opened: a call of one of the
four start/stop operations (with what the outside answers), a run of the
worker, one dispatcher invocation, or a status query. -/
inductive Op
  | start_rx (usb_result : Int) (submit : Nat → Int) (create_result : Int)
      (callback rx_ctx : Option Nat)
  | start_tx (usb_result : Int) (submit : Nat → Int) (create_result : Int)
      (callback tx_ctx : Option Nat)
  | stop_rx (join_result usb_result : Int)
  | stop_tx (join_result usb_result : Int)
  | worker (script : List (List Completion × Int))
  | dispatch (c : Completion)
  | is_streaming

/-- The world after one step; `none` if the step has no defined behaviour. -/
def Op.step : Op → World → Option World
  | Op.start_rx u s c cb ctx, w => (hackrf_start_rx u s c cb ctx w).map Prod.snd
  | Op.start_tx u s c cb ctx, w => (hackrf_start_tx u s c cb ctx w).map Prod.snd
  | Op.stop_rx j u, w => some (hackrf_stop_rx j u w).2
  | Op.stop_tx j u, w => some (hackrf_stop_tx j u w).2
  | Op.worker script, w => some (transfer_threadproc script w)
  | Op.dispatch c, w => some (hackrf_libusb_transfer_callback c w)
  | Op.is_streaming, w => some (hackrf_is_streaming w).2

/-- The world after a sequence of steps. -/
def run : List Op → World → Option World
  | [], w => some w
  | op :: rest, w =>
      match op.step w with
      | none => none
      | some w1 => run rest w1

/-! ## The supported bandwidths -/

/-- The supported bandwidths: the entries of `max2837_ft` before the 0 entry. -/
def supported_bandwidths : List Nat :=
  max2837_ft.filter (fun bw => bw ≠ 0)

/-! ## Register writes -/

/-- `HACKRF_VENDOR_REQUEST_MAX2837_WRITE = 2`. -/
def HACKRF_VENDOR_REQUEST_MAX2837_WRITE : Nat := 2

/-- `HACKRF_VENDOR_REQUEST_SI5351C_WRITE = 4`. -/
def HACKRF_VENDOR_REQUEST_SI5351C_WRITE : Nat := 4

/-- `HACKRF_VENDOR_REQUEST_RFFC5071_WRITE = 8`. -/
def HACKRF_VENDOR_REQUEST_RFFC5071_WRITE : Nat := 8

/-- `hackrf_max2837_write`; `register_number` is a `uint8_t`, `value` a
`uint16_t`, both passed on as they are; `usb_result` is the value
`libusb_control_transfer` returns. -/
def hackrf_max2837_write (usb_result : Int) (register_number value : Nat) (w : World) :
    hackrf_error × World :=
  if register_number ≥ 32 then
    (HACKRF_ERROR_INVALID_PARAM, w)
  else if value ≥ 0x400 then
    (HACKRF_ERROR_INVALID_PARAM, w)
  else
    let w1 := w.call
      (Call.control_transfer HACKRF_VENDOR_REQUEST_MAX2837_WRITE value register_number [])
    if usb_result ≠ 0 then (HACKRF_ERROR_LIBUSB, w1) else (HACKRF_SUCCESS, w1)

/-- `hackrf_si5351c_write`; `register_number` and `value` are `uint16_t`. -/
def hackrf_si5351c_write (usb_result : Int) (register_number value : Nat) (w : World) :
    hackrf_error × World :=
  if register_number ≥ 256 then
    (HACKRF_ERROR_INVALID_PARAM, w)
  else if value ≥ 256 then
    (HACKRF_ERROR_INVALID_PARAM, w)
  else
    let w1 := w.call
      (Call.control_transfer HACKRF_VENDOR_REQUEST_SI5351C_WRITE value register_number [])
    if usb_result ≠ 0 then (HACKRF_ERROR_LIBUSB, w1) else (HACKRF_SUCCESS, w1)

/-- `hackrf_rffc5071_write`; `register_number` is a `uint8_t`, `value` a
`uint16_t`. -/
def hackrf_rffc5071_write (usb_result : Int) (register_number value : Nat) (w : World) :
    hackrf_error × World :=
  if register_number ≥ 31 then
    (HACKRF_ERROR_INVALID_PARAM, w)
  else
    let w1 := w.call
      (Call.control_transfer HACKRF_VENDOR_REQUEST_RFFC5071_WRITE value register_number [])
    if usb_result ≠ 0 then (HACKRF_ERROR_LIBUSB, w1) else (HACKRF_SUCCESS, w1)

/-! ## Submissions of a start -/

/-- The submissions of `n` successive units from `unit` on, in order. -/
def submit_calls : Nat → Nat → List Call
  | _, 0 => []
  | unit, n + 1 => Call.submit_transfer unit :: submit_calls (unit + 1) n

/-- The answers of the transport in which the submission of unit 2 fails (with
`LIBUSB_ERROR_IO`, -1) and every other submission succeeds. -/
def submit_fails_at_2 : Nat → Int :=
  fun unit => if unit = 2 then -1 else 0

/-! ## Theorems -/

theorem calls_since_call (w : World) (c : Call) : calls_since w (w.call c) = [c] := by
  simp [calls_since, World.call]

theorem calls_since_append (w w1 : World) (l : List Call) (h : w1.calls = w.calls ++ l) :
    calls_since w w1 = l := by
  simp [calls_since, h]

/-- C1: for every completion notification, with the sample callback's return
value and the resubmission result as inputs, the dispatcher invokes the sample
callback iff the status is completed, resubmits the unit iff the status is
completed and the callback returned 0, sets `do_exit` if the status is not
completed or the callback returned non-zero or the resubmission failed, and
otherwise leaves `do_exit` as it was; the session record is not touched. -/
theorem dispatcher_contract (c : Completion) (w : World) :
    ((calls_since w (hackrf_libusb_transfer_callback c w)).any Call.is_sample_callback = true
        ↔ c.status = LIBUSB_TRANSFER_COMPLETED) ∧
    ((calls_since w (hackrf_libusb_transfer_callback c w)).any Call.is_submit = true
        ↔ (c.status = LIBUSB_TRANSFER_COMPLETED ∧ c.cb_ret = 0)) ∧
    ((c.status ≠ LIBUSB_TRANSFER_COMPLETED ∨ c.cb_ret ≠ 0 ∨ c.submit_ret < 0) →
        (hackrf_libusb_transfer_callback c w).do_exit = true) ∧
    (¬ (c.status ≠ LIBUSB_TRANSFER_COMPLETED ∨ c.cb_ret ≠ 0 ∨ c.submit_ret < 0) →
        (hackrf_libusb_transfer_callback c w).do_exit = w.do_exit) ∧
    (hackrf_libusb_transfer_callback c w).device = w.device := by
  unfold hackrf_libusb_transfer_callback
  by_cases hs : c.status = LIBUSB_TRANSFER_COMPLETED
  · by_cases hc : c.cb_ret = 0
    · by_cases hr : c.submit_ret < 0
      · simp [hs, hc, hr, request_exit, calls_since, World.call, Call.is_sample_callback,
          Call.is_submit]
      · simp [hs, hc, hr, request_exit, calls_since, World.call, Call.is_sample_callback,
          Call.is_submit]
    · simp [hs, hc, request_exit, calls_since, World.call, Call.is_sample_callback,
        Call.is_submit]
  · simp [hs, request_exit, calls_since, World.call, Call.is_sample_callback, Call.is_submit]

/-- C2: `hackrf_is_streaming` returns `HACKRF_TRUE` iff the worker is started,
streaming is active and `do_exit` is false; otherwise it returns
`HACKRF_ERROR_STREAMING_THREAD_ERR` if the worker is not started, else
`HACKRF_ERROR_STREAMING_STOPPED` if streaming is not active, else
`HACKRF_ERROR_STREAMING_EXIT_CALLED`; and it changes nothing. -/
theorem is_streaming_contract (w : World) :
    ((hackrf_is_streaming w).1 = HACKRF_TRUE ↔
      (w.device.transfer_thread_started = true ∧ w.device.streaming = true ∧
        w.do_exit = false)) ∧
    (w.device.transfer_thread_started = false →
      (hackrf_is_streaming w).1 = HACKRF_ERROR_STREAMING_THREAD_ERR) ∧
    (w.device.transfer_thread_started = true → w.device.streaming = false →
      (hackrf_is_streaming w).1 = HACKRF_ERROR_STREAMING_STOPPED) ∧
    (w.device.transfer_thread_started = true → w.device.streaming = true →
      w.do_exit = true → (hackrf_is_streaming w).1 = HACKRF_ERROR_STREAMING_EXIT_CALLED) ∧
    (hackrf_is_streaming w).2 = w := by
  unfold hackrf_is_streaming
  cases hst : w.device.transfer_thread_started <;> cases hs : w.device.streaming <;>
    cases he : w.do_exit <;> simp

/-! ### The concrete sessions are reached by the code -/

theorem hackrf_open_opened_world :
    hackrf_open open_env true = (HACKRF_SUCCESS, some opened_world.device, false) := by
  decide

theorem hackrf_start_rx_streaming_world :
    hackrf_start_rx 0 (fun _ => 0) 0 (some 7) (some 1) opened_world
      = some (HACKRF_SUCCESS, streaming_world) := by
  decide

/-! ### Stop -/

theorem cancel_transfers_loop_eq (slots : List (Option libusb_transfer)) :
    ∀ (unit : Nat) (w : World),
      cancel_transfers_loop slots unit w = { w with calls := w.calls ++ cancel_calls slots unit } := by
  induction slots with
  | nil => intro unit w; simp [cancel_transfers_loop, cancel_calls]
  | cons s rest ih =>
      intro unit w
      cases s with
      | none => simp [cancel_transfers_loop, cancel_calls, ih]
      | some t => simp [cancel_transfers_loop, cancel_calls, ih, World.call]

theorem cancel_calls_mem (slots : List (Option libusb_transfer)) :
    ∀ (unit i : Nat) (t : libusb_transfer), slots[i]? = some (some t) →
      Call.cancel_transfer (unit + i) ∈ cancel_calls slots unit := by
  induction slots with
  | nil => intro unit i t h; simp at h
  | cons s rest ih =>
      intro unit i t h
      cases i with
      | zero =>
          simp at h
          subst h
          simp [cancel_calls]
      | succ j =>
          simp at h
          have hj := ih (unit + 1) j t h
          have e : unit + 1 + j = unit + (j + 1) := by omega
          rw [e] at hj
          cases s with
          | none => simpa [cancel_calls] using hj
          | some t1 => simp [cancel_calls, hj]

/-- C3 (as stated, refuted): on the streaming session, whose four pool units
are all allocated, a stop whose join fails returns the thread error having
requested no cancellation at all; the only call it makes is the join. -/
theorem kill_transfer_thread_join_failure_no_cancel :
    streaming_world.device.transfer_thread_started = true ∧
    streaming_world.device.transfers
      = some [some rx_unit, some rx_unit, some rx_unit, some rx_unit] ∧
    (kill_transfer_thread 1 streaming_world).1 = HACKRF_ERROR_THREAD ∧
    calls_since streaming_world (kill_transfer_thread 1 streaming_world).2 = [Call.pthread_join] ∧
    Call.cancel_transfer 0 ∉ calls_since streaming_world (kill_transfer_thread 1 streaming_world).2 := by
  decide

/-- C3 (amended): for every session whose worker is started,
`kill_transfer_thread` sets `do_exit` whether the join succeeds or fails and
returns the thread error exactly when the join fails, success otherwise; when
the join succeeds it clears worker-started and requests cancellation of every
allocated pool unit, and when the join fails it requests no cancellation and
leaves worker-started set. -/
theorem kill_transfer_thread_started (join_result : Int) (w : World)
    (h : w.device.transfer_thread_started = true) :
    (kill_transfer_thread join_result w).2.do_exit = true ∧
    ((kill_transfer_thread join_result w).1 = HACKRF_ERROR_THREAD ↔ join_result ≠ 0) ∧
    ((kill_transfer_thread join_result w).1 = HACKRF_SUCCESS ↔ join_result = 0) ∧
    (join_result = 0 →
      (kill_transfer_thread join_result w).2.device.transfer_thread_started = false ∧
      ∀ (slots : List (Option libusb_transfer)) (unit : Nat) (t : libusb_transfer),
        w.device.transfers = some slots → slots[unit]? = some (some t) →
          Call.cancel_transfer unit ∈ calls_since w (kill_transfer_thread join_result w).2) ∧
    (join_result ≠ 0 →
      (kill_transfer_thread join_result w).2.device.transfer_thread_started = true ∧
      (calls_since w (kill_transfer_thread join_result w).2).any Call.is_cancel = false) := by
  by_cases hj : join_result = 0
  · subst hj
    refine ⟨?_, ?_, ?_, ?_, ?_⟩
    · cases ht : w.device.transfers <;>
        simp [kill_transfer_thread, request_exit, h, World.call, cancel_transfers, ht,
          cancel_transfers_loop_eq]
    · simp [kill_transfer_thread, request_exit, h]
    · simp [kill_transfer_thread, request_exit, h]
    · intro _
      constructor
      · cases ht : w.device.transfers <;>
          simp [kill_transfer_thread, request_exit, h, World.call, cancel_transfers, ht,
            cancel_transfers_loop_eq]
      · intro slots unit t ht hu
        have hm := cancel_calls_mem slots 0 unit t hu
        simp only [Nat.zero_add] at hm
        simp [kill_transfer_thread, request_exit, h, World.call, cancel_transfers, ht,
          cancel_transfers_loop_eq, calls_since, hm]
    · intro hne
      exact absurd rfl hne
  · simp [kill_transfer_thread, request_exit, h, hj, World.call, calls_since, Call.is_cancel]

/-- Witness of C3 (amended): the streaming session with a join that succeeds. -/
theorem kill_transfer_thread_started_witness :
    (kill_transfer_thread 0 streaming_world).2.do_exit = true ∧
    ((kill_transfer_thread 0 streaming_world).1 = HACKRF_SUCCESS ↔ (0 : Int) = 0) ∧
    calls_since streaming_world (kill_transfer_thread 0 streaming_world).2
      = [Call.pthread_join, Call.cancel_transfer 0, Call.cancel_transfer 1,
         Call.cancel_transfer 2, Call.cancel_transfer 3] :=
  ⟨(kill_transfer_thread_started 0 streaming_world (by decide)).1,
   (kill_transfer_thread_started 0 streaming_world (by decide)).2.2.1, by decide⟩

/-- C4 (as stated, refuted): on the freshly opened session no worker is
started and `do_exit` is false, yet after `kill_transfer_thread` (and after
`hackrf_stop_rx`) `do_exit` is true. -/
theorem kill_transfer_thread_idle_sets_do_exit :
    opened_world.device.transfer_thread_started = false ∧
    opened_world.do_exit = false ∧
    (kill_transfer_thread 0 opened_world).1 = HACKRF_SUCCESS ∧
    (kill_transfer_thread 0 opened_world).2.do_exit = true ∧
    (kill_transfer_thread 0 opened_world).2 ≠ opened_world ∧
    (hackrf_stop_rx 0 0 opened_world).2.do_exit = true := by
  decide

/-- C4 (amended): when no worker is started, `kill_transfer_thread` returns
success, leaves every session field unchanged and makes no call (so requests
no cancellation), and `do_exit` is true afterwards whatever it was before;
it is a no-op exactly when `do_exit` was already set.  `hackrf_stop_rx` and
`hackrf_stop_tx` then add only the mode-off command and return success when
that command succeeds. -/
theorem kill_transfer_thread_idle (join_result : Int) (w : World)
    (h : w.device.transfer_thread_started = false) :
    (kill_transfer_thread join_result w).1 = HACKRF_SUCCESS ∧
    (kill_transfer_thread join_result w).2.device = w.device ∧
    (kill_transfer_thread join_result w).2.calls = w.calls ∧
    (kill_transfer_thread join_result w).2.do_exit = true ∧
    ((kill_transfer_thread join_result w).2 = w ↔ w.do_exit = true) ∧
    (∀ usb_result : Int,
      (hackrf_stop_rx join_result usb_result w).2.device = w.device ∧
      (hackrf_stop_rx join_result usb_result w).2.do_exit = true ∧
      calls_since w (hackrf_stop_rx join_result usb_result w).2
        = [Call.control_transfer HACKRF_VENDOR_REQUEST_SET_TRANSCEIVER_MODE
            HACKRF_TRANSCEIVER_MODE_OFF 0 []] ∧
      ((hackrf_stop_rx join_result usb_result w).1 = HACKRF_SUCCESS ↔ usb_result = 0) ∧
      hackrf_stop_tx join_result usb_result w = hackrf_stop_rx join_result usb_result w) := by
  refine ⟨?_, ?_, ?_, ?_, ?_, ?_⟩
  · simp [kill_transfer_thread, request_exit, h]
  · simp [kill_transfer_thread, request_exit, h]
  · simp [kill_transfer_thread, request_exit, h]
  · simp [kill_transfer_thread, request_exit, h]
  · cases w with
    | mk d e c =>
        simp only at h
        simp [kill_transfer_thread, request_exit, h]
  · intro usb_result
    by_cases hu : usb_result = 0
    · simp [hackrf_stop_rx, hackrf_stop_tx, kill_transfer_thread, request_exit, h,
        hackrf_set_transceiver_mode, World.call, calls_since, hu]
    · simp [hackrf_stop_rx, hackrf_stop_tx, kill_transfer_thread, request_exit, h,
        hackrf_set_transceiver_mode, World.call, calls_since, hu]

/-- Witness of C4 (amended): the freshly opened session. -/
theorem kill_transfer_thread_idle_witness :
    (kill_transfer_thread 0 opened_world).1 = HACKRF_SUCCESS ∧
    (kill_transfer_thread 0 opened_world).2.device = opened_world.device ∧
    (kill_transfer_thread 0 opened_world).2.calls = opened_world.calls ∧
    (kill_transfer_thread 0 opened_world).2.do_exit = true :=
  ⟨(kill_transfer_thread_idle 0 opened_world (by decide)).1,
   (kill_transfer_thread_idle 0 opened_world (by decide)).2.1,
   (kill_transfer_thread_idle 0 opened_world (by decide)).2.2.1,
   (kill_transfer_thread_idle 0 opened_world (by decide)).2.2.2.1⟩

/-! ### Start on a started session -/

/-- C5 (as stated, refuted): on the streaming session (receive context 1), a
second `hackrf_start_rx` with callback 8 and receive context 2 returns
`HACKRF_ERROR_BUSY` but the stored receive context is now 2. -/
theorem hackrf_start_rx_twice_overwrites_rx_ctx :
    streaming_world.device.rx_ctx = some 1 ∧
    (hackrf_start_rx 0 (fun _ => 0) 0 (some 8) (some 2) streaming_world).map Prod.fst
      = some HACKRF_ERROR_BUSY ∧
    (hackrf_start_rx 0 (fun _ => 0) 0 (some 8) (some 2) streaming_world).map
        (fun r => r.2.device.rx_ctx) = some (some 2) ∧
    (hackrf_start_rx 0 (fun _ => 0) 0 (some 8) (some 2) streaming_world).map
        (fun r => r.2.device) ≠ some streaming_world.device := by
  decide

/-- C5 (amended): on a session whose worker is started, a second
`hackrf_start_rx` whose mode command succeeds returns `HACKRF_ERROR_BUSY`;
the stored sample callback, the transmit context, the pool, worker-started,
streaming-active and `do_exit` are unchanged, the only call made is the mode
command (no unit is submitted), and the stored receive context is the one
passed to this second call. -/
theorem hackrf_start_rx_busy (submit : Nat → Int) (create_result : Int)
    (callback rx_ctx : Option Nat) (w : World)
    (h : w.device.transfer_thread_started = true) :
    ∃ w1 : World,
      hackrf_start_rx 0 submit create_result callback rx_ctx w = some (HACKRF_ERROR_BUSY, w1) ∧
      w1.device.callback = w.device.callback ∧
      w1.device.tx_ctx = w.device.tx_ctx ∧
      w1.device.transfers = w.device.transfers ∧
      w1.device.transfer_thread_started = true ∧
      w1.device.streaming = w.device.streaming ∧
      w1.do_exit = w.do_exit ∧
      calls_since w w1
        = [Call.control_transfer HACKRF_VENDOR_REQUEST_SET_TRANSCEIVER_MODE
            HACKRF_TRANSCEIVER_MODE_RECEIVE 0 []] ∧
      (calls_since w w1).any Call.is_submit = false ∧
      w1.device.rx_ctx = rx_ctx := by
  refine ⟨{ device := { w.device with rx_ctx := rx_ctx }
            do_exit := w.do_exit
            calls := w.calls ++ [Call.control_transfer HACKRF_VENDOR_REQUEST_SET_TRANSCEIVER_MODE
              HACKRF_TRANSCEIVER_MODE_RECEIVE 0 []] }, ?_, ?_⟩
  · simp [hackrf_start_rx, hackrf_set_transceiver_mode, create_transfer_thread, h, World.call]
  · simp [h, calls_since, Call.is_submit]

/-- Witness of C5 (amended): the streaming session, second start with
callback 8 and receive context 2. -/
theorem hackrf_start_rx_busy_witness :
    ∃ w1 : World,
      hackrf_start_rx 0 (fun _ => 0) 0 (some 8) (some 2) streaming_world
        = some (HACKRF_ERROR_BUSY, w1) ∧
      w1.device.callback = some 7 ∧ w1.device.rx_ctx = some 2 := by
  obtain ⟨w1, h1, h2, _, _, _, _, _, _, _, h3⟩ :=
    hackrf_start_rx_busy (fun _ => 0) 0 (some 8) (some 2) streaming_world (by decide)
  exact ⟨w1, h1, h2, h3⟩

/-! ### The worker and the dispatcher -/

theorem none_after_stop_of_all (p : Call → Bool) (l : List Call)
    (h : l.all (fun x => !p x) = true) : none_after_stop p l = true := by
  induction l with
  | nil => rfl
  | cons c rest ih =>
      simp only [List.all_cons, Bool.and_eq_true] at h
      unfold none_after_stop
      split
      · exact h.2
      · exact ih h.2

theorem none_after_stop_append (p : Call → Bool) (l1 l2 : List Call)
    (h : l1.any Call.is_stop = false) :
    none_after_stop p (l1 ++ l2) = none_after_stop p l2 := by
  induction l1 with
  | nil => rfl
  | cons c rest ih =>
      simp only [List.any_cons, Bool.or_eq_false_iff] at h
      simp [none_after_stop, h.1, ih h.2]

theorem dispatcher_calls (c : Completion) (w : World) :
    ∃ l : List Call,
      (hackrf_libusb_transfer_callback c w).calls = w.calls ++ l ∧
      l.all (fun x => !x.is_handle_events) = true ∧
      (l.any Call.is_stop = true → (hackrf_libusb_transfer_callback c w).do_exit = true) ∧
      (w.do_exit = true → (hackrf_libusb_transfer_callback c w).do_exit = true) ∧
      (hackrf_libusb_transfer_callback c w).device = w.device := by
  unfold hackrf_libusb_transfer_callback
  by_cases hs : c.status = LIBUSB_TRANSFER_COMPLETED
  · by_cases hc : c.cb_ret = 0
    · by_cases hr : c.submit_ret < 0
      · exact ⟨_, by simp [hs, hc, hr, request_exit, World.call]; rfl,
          by simp [Call.is_handle_events], by simp [hs, hc, hr, request_exit],
          by simp [hs, hc, hr, request_exit], by simp [hs, hc, hr, request_exit, World.call]⟩
      · exact ⟨_, by simp [hs, hc, hr, World.call]; rfl,
          by simp [Call.is_handle_events], by simp [hc, Call.is_stop],
          by simp [hs, hc, hr, World.call], by simp [hs, hc, hr, World.call]⟩
    · exact ⟨_, by simp [hs, hc, request_exit, World.call]; rfl,
        by simp [Call.is_handle_events], by simp [hs, hc, request_exit],
        by simp [hs, hc, request_exit], by simp [hs, hc, request_exit, World.call]⟩
  · exact ⟨[], by simp [hs, request_exit], by simp, by simp,
      by simp [hs, request_exit], by simp [hs, request_exit]⟩

theorem dispatch_batch_calls (batch : List Completion) :
    ∀ w : World, ∃ l : List Call,
      (batch.foldl (fun w1 c => hackrf_libusb_transfer_callback c w1) w).calls = w.calls ++ l ∧
      l.all (fun x => !x.is_handle_events) = true ∧
      (l.any Call.is_stop = true →
        (batch.foldl (fun w1 c => hackrf_libusb_transfer_callback c w1) w).do_exit = true) ∧
      (w.do_exit = true →
        (batch.foldl (fun w1 c => hackrf_libusb_transfer_callback c w1) w).do_exit = true) ∧
      (batch.foldl (fun w1 c => hackrf_libusb_transfer_callback c w1) w).device = w.device := by
  induction batch with
  | nil => intro w; exact ⟨[], by simp, by simp, by simp, by simp, by simp⟩
  | cons c rest ih =>
      intro w
      obtain ⟨l1, hc1, ha1, hs1, hm1, hd1⟩ := dispatcher_calls c w
      obtain ⟨l2, hc2, ha2, hs2, hm2, hd2⟩ := ih (hackrf_libusb_transfer_callback c w)
      refine ⟨l1 ++ l2, ?_, ?_, ?_, ?_, ?_⟩
      · simp only [List.foldl_cons]
        rw [hc2, hc1, List.append_assoc]
      · rw [List.all_append, ha1, ha2]; rfl
      · intro h
        simp only [List.foldl_cons]
        rw [List.any_append, Bool.or_eq_true] at h
        rcases h with h | h
        · exact hm2 (hs1 h)
        · exact hs2 h
      · intro h
        simp only [List.foldl_cons]
        exact hm2 (hm1 h)
      · simp only [List.foldl_cons]
        rw [hd2, hd1]

theorem handle_events_calls (batch : List Completion) (w : World) :
    ∃ l : List Call,
      (libusb_handle_events_timeout batch w).calls = w.calls ++ Call.handle_events :: l ∧
      l.all (fun x => !x.is_handle_events) = true ∧
      (l.any Call.is_stop = true → (libusb_handle_events_timeout batch w).do_exit = true) ∧
      (libusb_handle_events_timeout batch w).device = w.device := by
  obtain ⟨l, hc, ha, hs, _, hd⟩ := dispatch_batch_calls batch (w.call Call.handle_events)
  refine ⟨l, ?_, ha, hs, ?_⟩
  · unfold libusb_handle_events_timeout
    rw [hc]
    simp [World.call]
  · unfold libusb_handle_events_timeout
    rw [hd]
    simp [World.call]

theorem transfer_threadproc_do_exit (script : List (List Completion × Int)) (w : World)
    (h : w.do_exit = true) : transfer_threadproc script w = w := by
  cases script with
  | nil => rfl
  | cons b rest => simp [transfer_threadproc, h]

theorem transfer_threadproc_calls (script : List (List Completion × Int)) :
    ∀ w : World, ∃ l : List Call,
      (transfer_threadproc script w).calls = w.calls ++ l ∧
      none_after_stop Call.is_handle_events l = true ∧
      (l.any Call.is_stop = true → (transfer_threadproc script w).do_exit = true) := by
  induction script with
  | nil => intro w; exact ⟨[], by simp [transfer_threadproc], rfl, by simp⟩
  | cons b rest ih =>
      intro w
      obtain ⟨batch, error⟩ := b
      by_cases hloop : w.device.streaming = true ∧ w.do_exit = false
      · obtain ⟨l1, hc1, ha1, hs1, _⟩ := handle_events_calls batch w
        have hstep : ∃ w2 : World,
            transfer_threadproc ((batch, error) :: rest) w = transfer_threadproc rest w2 ∧
            w2.calls = (libusb_handle_events_timeout batch w).calls ∧
            w2.do_exit = (libusb_handle_events_timeout batch w).do_exit := by
          refine ⟨if error ≠ 0 then
              { libusb_handle_events_timeout batch w with
                device := { (libusb_handle_events_timeout batch w).device with streaming := false } }
            else libusb_handle_events_timeout batch w, ?_, ?_, ?_⟩
          · simp [transfer_threadproc, hloop]
          · split <;> rfl
          · split <;> rfl
        obtain ⟨w2, hw, hcalls, hexit⟩ := hstep
        by_cases hstop : l1.any Call.is_stop = true
        · have hx : w2.do_exit = true := by rw [hexit]; exact hs1 hstop
          refine ⟨Call.handle_events :: l1, ?_, ?_, ?_⟩
          · rw [hw, transfer_threadproc_do_exit rest w2 hx, hcalls, hc1]
          · simp only [none_after_stop, Call.is_stop]
            exact none_after_stop_of_all _ _ ha1
          · intro _
            rw [hw, transfer_threadproc_do_exit rest w2 hx]
            exact hx
        · obtain ⟨l2, hc2, hn2, hs2⟩ := ih w2
          have hno : (Call.handle_events :: l1).any Call.is_stop = false := by
            simp only [List.any_cons, Call.is_stop, Bool.false_or]
            simpa using hstop
          refine ⟨(Call.handle_events :: l1) ++ l2, ?_, ?_, ?_⟩
          · rw [hw, hc2, hcalls, hc1, List.append_assoc]
          · rw [none_after_stop_append _ _ _ hno]
            exact hn2
          · intro h
            rw [List.any_append, hno, Bool.false_or] at h
            rw [hw]
            exact hs2 h
      · exact ⟨[], by simp [transfer_threadproc, hloop], rfl, by simp⟩

/-- C6 (as stated, refuted): the worker on the streaming session makes one
event-processing call in which two units complete; the sample callback returns
1 for the first and is invoked again for the second. -/
theorem sample_callback_invoked_after_stop :
    calls_since streaming_world
        (transfer_threadproc [([completion_stop, completion_continue], 0)] streaming_world)
      = [Call.handle_events,
         Call.sample_callback 0
           { buffer_length := 262144, valid_length := 262144, rx_ctx := some 1, tx_ctx := none } 1,
         Call.sample_callback 1
           { buffer_length := 262144, valid_length := 262144, rx_ctx := some 1, tx_ctx := none } 0,
         Call.submit_transfer 1] ∧
    none_after_stop Call.is_sample_callback
        (calls_since streaming_world
          (transfer_threadproc [([completion_stop, completion_continue], 0)] streaming_world))
      = false := by
  decide

/-- C6 (amended): in every execution of the worker (any sequence of
event-processing calls, each dispatching any sequence of completions), once
the sample callback has returned non-zero the worker enters no further
event-processing call, so the sample callback can be invoked again only for
completions dispatched within the event-processing call in progress; and from
then on `do_exit` is set, every further dispatcher invocation and worker run
keeps it set, and `hackrf_is_streaming` (worker started, streaming active)
returns `HACKRF_ERROR_STREAMING_EXIT_CALLED`. -/
theorem worker_after_stop (script : List (List Completion × Int)) (w : World) :
    none_after_stop Call.is_handle_events (calls_since w (transfer_threadproc script w)) = true ∧
    ((calls_since w (transfer_threadproc script w)).any Call.is_stop = true →
      (transfer_threadproc script w).do_exit = true ∧
      (∀ later : List Completion,
        (later.foldl (fun w1 c => hackrf_libusb_transfer_callback c w1)
          (transfer_threadproc script w)).do_exit = true) ∧
      (∀ more : List (List Completion × Int),
        transfer_threadproc more (transfer_threadproc script w) = transfer_threadproc script w) ∧
      ((transfer_threadproc script w).device.transfer_thread_started = true →
        (transfer_threadproc script w).device.streaming = true →
        (hackrf_is_streaming (transfer_threadproc script w)).1
          = HACKRF_ERROR_STREAMING_EXIT_CALLED)) := by
  obtain ⟨l, hc, hn, hs⟩ := transfer_threadproc_calls script w
  rw [calls_since_append w _ l hc]
  refine ⟨hn, ?_⟩
  intro h
  have hx := hs h
  refine ⟨hx, ?_, ?_, ?_⟩
  · intro later
    obtain ⟨_, _, _, _, hm, _⟩ := dispatch_batch_calls later (transfer_threadproc script w)
    exact hm hx
  · intro more
    exact transfer_threadproc_do_exit more _ hx
  · intro h1 h2
    simp [hackrf_is_streaming, h1, h2, hx]

/-! ### The shutdown flag -/

theorem prepare_transfers_loop_do_exit (submit : Nat → Int) (endpoint_address : Nat)
    (slots : List (Option libusb_transfer)) :
    ∀ (unit : Nat) (w : World) (x : hackrf_error × List (Option libusb_transfer) × World),
      prepare_transfers_loop submit endpoint_address slots unit w = some x →
        x.2.2.do_exit = w.do_exit := by
  induction slots with
  | nil =>
      intro unit w x h
      simp only [prepare_transfers_loop, Option.some.injEq] at h
      rw [← h]
  | cons s rest ih =>
      intro unit w x h
      cases s with
      | none => simp [prepare_transfers_loop] at h
      | some t =>
          simp only [prepare_transfers_loop] at h
          split at h
          · simp only [Option.some.injEq] at h
            rw [← h]
            rfl
          · split at h
            · exact absurd h (by simp)
            · rename_i r2 rest1 w2 heq
              simp only [Option.some.injEq] at h
              rw [← h]
              exact ih (unit + 1) (w.call (Call.submit_transfer unit)) (r2, rest1, w2) heq

theorem prepare_transfers_do_exit (submit : Nat → Int) (endpoint_address : Nat) (w : World)
    (x : hackrf_error × World)
    (h : prepare_transfers submit endpoint_address w = some x) :
    x.2.do_exit = w.do_exit := by
  unfold prepare_transfers at h
  split at h
  · rename_i slots hslots
    split at h
    · exact absurd h (by simp)
    · rename_i r2 slots1 w2 heq
      simp only [Option.some.injEq] at h
      rw [← h]
      exact prepare_transfers_loop_do_exit submit endpoint_address slots 0 w (r2, slots1, w2) heq
  · simp only [Option.some.injEq] at h
    rw [← h]

theorem create_transfer_thread_do_exit (submit : Nat → Int) (create_result : Int)
    (endpoint_address : Nat) (callback : Option Nat) (w : World) (x : hackrf_error × World)
    (h : create_transfer_thread submit create_result endpoint_address callback w = some x) :
    x.2.do_exit = w.do_exit := by
  unfold create_transfer_thread at h
  by_cases hs : w.device.transfer_thread_started = false
  · rw [if_pos hs] at h
    have hp := prepare_transfers_do_exit submit endpoint_address
      { w with device := { w.device with streaming := false } }
    dsimp only at h hp
    revert h hp
    generalize prepare_transfers submit endpoint_address _ = p
    intro h hp
    cases p with
    | none => exact absurd h (by simp)
    | some y =>
        obtain ⟨r2, w2⟩ := y
        have hp2 : w2.do_exit = w.do_exit := hp (r2, w2) rfl
        by_cases hr : r2 = HACKRF_SUCCESS
        · by_cases hc : create_result = 0
          · simp only [hr, hc, ne_eq, not_true_eq_false, if_false, if_true,
              Option.some.injEq] at h
            rw [← h]
            exact hp2
          · simp only [hr, hc, ne_eq, not_true_eq_false, if_false,
              Option.some.injEq] at h
            rw [← h]
            exact hp2
        · simp only [hr, ne_eq, not_false_eq_true, if_true, Option.some.injEq] at h
          rw [← h]
          exact hp2
  · rw [if_neg hs] at h
    simp only [Option.some.injEq] at h
    rw [← h]

theorem hackrf_start_rx_do_exit (usb_result : Int) (submit : Nat → Int) (create_result : Int)
    (callback rx_ctx : Option Nat) (w : World) (x : hackrf_error × World)
    (h : hackrf_start_rx usb_result submit create_result callback rx_ctx w = some x) :
    x.2.do_exit = w.do_exit := by
  unfold hackrf_start_rx hackrf_set_transceiver_mode at h
  by_cases hu : usb_result = 0
  · simp only [hu, ne_eq, not_true_eq_false, if_false, if_true] at h
    have hc := create_transfer_thread_do_exit _ _ _ _ _ x h
    exact hc
  · simp only [hu, ne_eq, not_false_eq_true, if_true, reduceCtorEq, if_false,
      Option.some.injEq] at h
    rw [← h]
    rfl

theorem hackrf_start_tx_do_exit (usb_result : Int) (submit : Nat → Int) (create_result : Int)
    (callback tx_ctx : Option Nat) (w : World) (x : hackrf_error × World)
    (h : hackrf_start_tx usb_result submit create_result callback tx_ctx w = some x) :
    x.2.do_exit = w.do_exit := by
  unfold hackrf_start_tx hackrf_set_transceiver_mode at h
  by_cases hu : usb_result = 0
  · simp only [hu, ne_eq, not_true_eq_false, if_false, if_true] at h
    have hc := create_transfer_thread_do_exit _ _ _ _ _ x h
    exact hc
  · simp only [hu, ne_eq, not_false_eq_true, if_true, reduceCtorEq, if_false,
      Option.some.injEq] at h
    rw [← h]
    rfl

theorem kill_transfer_thread_do_exit (join_result : Int) (w : World) :
    (kill_transfer_thread join_result w).2.do_exit = true := by
  unfold kill_transfer_thread
  by_cases hs : w.device.transfer_thread_started = true
  · by_cases hj : join_result = 0
    · cases ht : w.device.transfers <;>
        simp [request_exit, hs, hj, World.call, cancel_transfers, ht, cancel_transfers_loop_eq]
    · simp [request_exit, hs, hj, World.call]
  · simp [request_exit, hs]

theorem hackrf_stop_rx_do_exit (join_result usb_result : Int) (w : World) :
    (hackrf_stop_rx join_result usb_result w).2.do_exit = true := by
  have h := kill_transfer_thread_do_exit join_result w
  unfold hackrf_stop_rx hackrf_set_transceiver_mode
  by_cases hu : usb_result = 0 <;> simp [hu, World.call, h]

theorem hackrf_stop_tx_do_exit (join_result usb_result : Int) (w : World) :
    (hackrf_stop_tx join_result usb_result w).2.do_exit = true := by
  have h := kill_transfer_thread_do_exit join_result w
  unfold hackrf_stop_tx hackrf_set_transceiver_mode
  by_cases hu : usb_result = 0 <;> simp [hu, World.call, h]

theorem step_do_exit (op : Op) (w w1 : World) (h : op.step w = some w1)
    (hx : w.do_exit = true) : w1.do_exit = true := by
  cases op with
  | start_rx u s c cb ctx =>
      simp only [Op.step, Option.map_eq_some'] at h
      obtain ⟨x, h1, h2⟩ := h
      rw [← h2, hackrf_start_rx_do_exit _ _ _ _ _ _ x h1]
      exact hx
  | start_tx u s c cb ctx =>
      simp only [Op.step, Option.map_eq_some'] at h
      obtain ⟨x, h1, h2⟩ := h
      rw [← h2, hackrf_start_tx_do_exit _ _ _ _ _ _ x h1]
      exact hx
  | stop_rx j u =>
      simp only [Op.step, Option.some.injEq] at h
      rw [← h]
      exact hackrf_stop_rx_do_exit j u w
  | stop_tx j u =>
      simp only [Op.step, Option.some.injEq] at h
      rw [← h]
      exact hackrf_stop_tx_do_exit j u w
  | worker script =>
      simp only [Op.step, Option.some.injEq] at h
      rw [← h, transfer_threadproc_do_exit script w hx]
      exact hx
  | dispatch c =>
      simp only [Op.step, Option.some.injEq] at h
      obtain ⟨_, _, _, _, hm, _⟩ := dispatcher_calls c w
      rw [← h]
      exact hm hx
  | is_streaming =>
      simp only [Op.step, Option.some.injEq] at h
      rw [← h, (is_streaming_contract w).2.2.2.2]
      exact hx

theorem run_do_exit (ops : List Op) :
    ∀ (w w1 : World), run ops w = some w1 → w.do_exit = true → w1.do_exit = true := by
  induction ops with
  | nil =>
      intro w w1 h hx
      simp only [run, Option.some.injEq] at h
      rw [← h]
      exact hx
  | cons op rest ih =>
      intro w w1 h hx
      simp only [run] at h
      split at h
      · simp at h
      · rename_i w2 heq
        exact ih w2 w1 h (step_do_exit op w w2 heq hx)

theorem hackrf_open_do_exit (env : OpenEnv) (b : Bool)
    (h : (hackrf_open env b).1 = HACKRF_SUCCESS) : (hackrf_open env b).2.2 = false := by
  unfold hackrf_open at h ⊢
  by_cases h1 : env.device_arg = false
  · simp [h1] at h
  · by_cases h2 : env.usb_device = false
    · simp [h1, h2] at h
    · by_cases h3 : env.set_configuration ≠ 0
      · simp [h1, h2, h3] at h
      · by_cases h4 : env.claim_interface ≠ 0
        · simp [h1, h2, h3, h4] at h
        · by_cases h5 : env.malloc_device = false
          · simp [h1, h2, h3, h4, h5] at h
          · rw [if_neg h1, if_neg h2, if_neg h3, if_neg h4, if_neg h5]
            dsimp only
            split <;> rfl

theorem is_streaming_ne_true_of_do_exit (w : World) (h : w.do_exit = true) :
    (hackrf_is_streaming w).1 ≠ HACKRF_TRUE := by
  intro ht
  have h3 := ((is_streaming_contract w).1.mp ht).2.2
  rw [h] at h3
  exact absurd h3 (by decide)

/-- C7: no step of `hackrf_start_rx`, `hackrf_start_tx`, `hackrf_stop_rx`,
`hackrf_stop_tx`, the worker, the dispatcher or `hackrf_is_streaming` changes
`do_exit` from set to clear, while a successful `hackrf_open` leaves it clear;
hence after any `hackrf_stop_rx` or `hackrf_stop_tx`, and after any further
sequence of such steps, `hackrf_is_streaming` does not return `HACKRF_TRUE`. -/
theorem do_exit_cleared_only_by_open :
    (∀ (op : Op) (w w1 : World), op.step w = some w1 → w.do_exit = true → w1.do_exit = true) ∧
    (∀ (env : OpenEnv) (b : Bool),
      (hackrf_open env b).1 = HACKRF_SUCCESS → (hackrf_open env b).2.2 = false) ∧
    (∀ (join_result usb_result : Int) (ops : List Op) (w w1 : World),
      run ops (hackrf_stop_rx join_result usb_result w).2 = some w1 →
        w1.do_exit = true ∧ (hackrf_is_streaming w1).1 ≠ HACKRF_TRUE) ∧
    (∀ (join_result usb_result : Int) (ops : List Op) (w w1 : World),
      run ops (hackrf_stop_tx join_result usb_result w).2 = some w1 →
        w1.do_exit = true ∧ (hackrf_is_streaming w1).1 ≠ HACKRF_TRUE) := by
  refine ⟨step_do_exit, hackrf_open_do_exit, ?_, ?_⟩
  · intro j u ops w w1 h
    have hx := run_do_exit ops _ w1 h (hackrf_stop_rx_do_exit j u w)
    exact ⟨hx, is_streaming_ne_true_of_do_exit w1 hx⟩
  · intro j u ops w w1 h
    have hx := run_do_exit ops _ w1 h (hackrf_stop_tx_do_exit j u w)
    exact ⟨hx, is_streaming_ne_true_of_do_exit w1 hx⟩

/-- On the streaming session the status is `HACKRF_TRUE`; after a stop and a
successful restart it is `HACKRF_ERROR_STREAMING_EXIT_CALLED`. -/
theorem stop_then_restart_status :
    (hackrf_is_streaming streaming_world).1 = HACKRF_TRUE ∧
    (run [Op.start_rx 0 (fun _ => 0) 0 (some 7) (some 1), Op.is_streaming]
        (hackrf_stop_rx 0 0 streaming_world).2).map (fun w => (hackrf_is_streaming w).1)
      = some HACKRF_ERROR_STREAMING_EXIT_CALLED := by
  decide

/-! ### Baseband filter bandwidth selector -/

theorem max2837_ft_scan_cases (r : Nat) :
    (r ≤ 1750000 ∧ max2837_ft_scan r max2837_ft 0 = some 0) ∨
    ((1750000 < r ∧ r ≤ 2500000) ∧ max2837_ft_scan r max2837_ft 0 = some 1) ∨
    ((2500000 < r ∧ r ≤ 3500000) ∧ max2837_ft_scan r max2837_ft 0 = some 2) ∨
    ((3500000 < r ∧ r ≤ 5000000) ∧ max2837_ft_scan r max2837_ft 0 = some 3) ∨
    ((5000000 < r ∧ r ≤ 5500000) ∧ max2837_ft_scan r max2837_ft 0 = some 4) ∨
    ((5500000 < r ∧ r ≤ 6000000) ∧ max2837_ft_scan r max2837_ft 0 = some 5) ∨
    ((6000000 < r ∧ r ≤ 7000000) ∧ max2837_ft_scan r max2837_ft 0 = some 6) ∨
    ((7000000 < r ∧ r ≤ 8000000) ∧ max2837_ft_scan r max2837_ft 0 = some 7) ∨
    ((8000000 < r ∧ r ≤ 9000000) ∧ max2837_ft_scan r max2837_ft 0 = some 8) ∨
    ((9000000 < r ∧ r ≤ 10000000) ∧ max2837_ft_scan r max2837_ft 0 = some 9) ∨
    ((10000000 < r ∧ r ≤ 12000000) ∧ max2837_ft_scan r max2837_ft 0 = some 10) ∨
    ((12000000 < r ∧ r ≤ 14000000) ∧ max2837_ft_scan r max2837_ft 0 = some 11) ∨
    ((14000000 < r ∧ r ≤ 15000000) ∧ max2837_ft_scan r max2837_ft 0 = some 12) ∨
    ((15000000 < r ∧ r ≤ 20000000) ∧ max2837_ft_scan r max2837_ft 0 = some 13) ∨
    ((20000000 < r ∧ r ≤ 24000000) ∧ max2837_ft_scan r max2837_ft 0 = some 14) ∨
    ((24000000 < r ∧ r ≤ 28000000) ∧ max2837_ft_scan r max2837_ft 0 = some 15) ∨
    (28000000 < r ∧ max2837_ft_scan r max2837_ft 0 = some 16) := by
  by_cases h0 : r ≤ 1750000
  · exact Or.inl ⟨h0, by simp [max2837_ft, max2837_ft_scan, h0]⟩
  by_cases h1 : r ≤ 2500000
  · exact Or.inr (Or.inl ⟨⟨by omega, h1⟩, by simp [max2837_ft, max2837_ft_scan, h0, h1]⟩)
  by_cases h2 : r ≤ 3500000
  · exact Or.inr (Or.inr (Or.inl ⟨⟨by omega, h2⟩, by simp [max2837_ft, max2837_ft_scan, h0, h1, h2]⟩))
  by_cases h3 : r ≤ 5000000
  · exact Or.inr (Or.inr (Or.inr (Or.inl ⟨⟨by omega, h3⟩, by simp [max2837_ft, max2837_ft_scan, h0, h1, h2, h3]⟩)))
  by_cases h4 : r ≤ 5500000
  · exact Or.inr (Or.inr (Or.inr (Or.inr (Or.inl ⟨⟨by omega, h4⟩, by simp [max2837_ft, max2837_ft_scan, h0, h1, h2, h3, h4]⟩))))
  by_cases h5 : r ≤ 6000000
  · exact Or.inr (Or.inr (Or.inr (Or.inr (Or.inr (Or.inl ⟨⟨by omega, h5⟩, by simp [max2837_ft, max2837_ft_scan, h0, h1, h2, h3, h4, h5]⟩)))))
  by_cases h6 : r ≤ 7000000
  · exact Or.inr (Or.inr (Or.inr (Or.inr (Or.inr (Or.inr (Or.inl ⟨⟨by omega, h6⟩, by simp [max2837_ft, max2837_ft_scan, h0, h1, h2, h3, h4, h5, h6]⟩))))))
  by_cases h7 : r ≤ 8000000
  · exact Or.inr (Or.inr (Or.inr (Or.inr (Or.inr (Or.inr (Or.inr (Or.inl ⟨⟨by omega, h7⟩, by simp [max2837_ft, max2837_ft_scan, h0, h1, h2, h3, h4, h5, h6, h7]⟩)))))))
  by_cases h8 : r ≤ 9000000
  · exact Or.inr (Or.inr (Or.inr (Or.inr (Or.inr (Or.inr (Or.inr (Or.inr (Or.inl ⟨⟨by omega, h8⟩, by simp [max2837_ft, max2837_ft_scan, h0, h1, h2, h3, h4, h5, h6, h7, h8]⟩))))))))
  by_cases h9 : r ≤ 10000000
  · exact Or.inr (Or.inr (Or.inr (Or.inr (Or.inr (Or.inr (Or.inr (Or.inr (Or.inr (Or.inl ⟨⟨by omega, h9⟩, by simp [max2837_ft, max2837_ft_scan, h0, h1, h2, h3, h4, h5, h6, h7, h8, h9]⟩)))))))))
  by_cases h10 : r ≤ 12000000
  · exact Or.inr (Or.inr (Or.inr (Or.inr (Or.inr (Or.inr (Or.inr (Or.inr (Or.inr (Or.inr (Or.inl ⟨⟨by omega, h10⟩, by simp [max2837_ft, max2837_ft_scan, h0, h1, h2, h3, h4, h5, h6, h7, h8, h9, h10]⟩))))))))))
  by_cases h11 : r ≤ 14000000
  · exact Or.inr (Or.inr (Or.inr (Or.inr (Or.inr (Or.inr (Or.inr (Or.inr (Or.inr (Or.inr (Or.inr (Or.inl ⟨⟨by omega, h11⟩, by simp [max2837_ft, max2837_ft_scan, h0, h1, h2, h3, h4, h5, h6, h7, h8, h9, h10, h11]⟩)))))))))))
  by_cases h12 : r ≤ 15000000
  · exact Or.inr (Or.inr (Or.inr (Or.inr (Or.inr (Or.inr (Or.inr (Or.inr (Or.inr (Or.inr (Or.inr (Or.inr (Or.inl ⟨⟨by omega, h12⟩, by simp [max2837_ft, max2837_ft_scan, h0, h1, h2, h3, h4, h5, h6, h7, h8, h9, h10, h11, h12]⟩))))))))))))
  by_cases h13 : r ≤ 20000000
  · exact Or.inr (Or.inr (Or.inr (Or.inr (Or.inr (Or.inr (Or.inr (Or.inr (Or.inr (Or.inr (Or.inr (Or.inr (Or.inr (Or.inl ⟨⟨by omega, h13⟩, by simp [max2837_ft, max2837_ft_scan, h0, h1, h2, h3, h4, h5, h6, h7, h8, h9, h10, h11, h12, h13]⟩)))))))))))))
  by_cases h14 : r ≤ 24000000
  · exact Or.inr (Or.inr (Or.inr (Or.inr (Or.inr (Or.inr (Or.inr (Or.inr (Or.inr (Or.inr (Or.inr (Or.inr (Or.inr (Or.inr (Or.inl ⟨⟨by omega, h14⟩, by simp [max2837_ft, max2837_ft_scan, h0, h1, h2, h3, h4, h5, h6, h7, h8, h9, h10, h11, h12, h13, h14]⟩))))))))))))))
  by_cases h15 : r ≤ 28000000
  · exact Or.inr (Or.inr (Or.inr (Or.inr (Or.inr (Or.inr (Or.inr (Or.inr (Or.inr (Or.inr (Or.inr (Or.inr (Or.inr (Or.inr (Or.inr (Or.inl ⟨⟨by omega, h15⟩, by simp [max2837_ft, max2837_ft_scan, h0, h1, h2, h3, h4, h5, h6, h7, h8, h9, h10, h11, h12, h13, h14, h15]⟩)))))))))))))))
  exact Or.inr (Or.inr (Or.inr (Or.inr (Or.inr (Or.inr (Or.inr (Or.inr (Or.inr (Or.inr (Or.inr (Or.inr (Or.inr (Or.inr (Or.inr (Or.inr (⟨by omega, by simp [max2837_ft, max2837_ft_scan, h0, h1, h2, h3, h4, h5, h6, h7, h8, h9, h10, h11, h12, h13, h14, h15]⟩))))))))))))))))


theorem supported_bandwidths_eq :
    supported_bandwidths
      = [1750000, 2500000, 3500000, 5000000, 5500000, 6000000, 7000000, 8000000, 9000000,
         10000000, 12000000, 14000000, 15000000, 20000000, 24000000, 28000000] := by
  decide

theorem mem_supported_bandwidths (e : Nat) :
    e ∈ supported_bandwidths ↔
      (e = 1750000 ∨ e = 2500000 ∨ e = 3500000 ∨ e = 5000000 ∨ e = 5500000 ∨ e = 6000000 ∨
       e = 7000000 ∨ e = 8000000 ∨ e = 9000000 ∨ e = 10000000 ∨ e = 12000000 ∨ e = 14000000 ∨
       e = 15000000 ∨ e = 20000000 ∨ e = 24000000 ∨ e = 28000000) := by
  rw [supported_bandwidths_eq]
  simp only [List.mem_cons, List.mem_singleton, List.not_mem_nil, or_false]

/-- C8: for every requested bandwidth `r`,
`hackrf_compute_baseband_filter_bw_round_down_lt r` returns a supported
bandwidth `v`; if some supported bandwidth is strictly less than `r` then `v`
is the largest such, and if none is then `v` is the smallest supported
bandwidth, 1.75 MHz; in particular 4.0 MHz gives 3.5 MHz and 1.0 MHz gives
1.75 MHz. -/
theorem round_down_lt_largest_below (r : Nat) :
    (∃ v : Nat, hackrf_compute_baseband_filter_bw_round_down_lt r = some v ∧
      v ∈ supported_bandwidths ∧
      ((∃ e ∈ supported_bandwidths, e < r) →
        v < r ∧ ∀ e ∈ supported_bandwidths, e < r → e ≤ v) ∧
      ((∀ e ∈ supported_bandwidths, ¬ e < r) →
        v = 1750000 ∧ ∀ e ∈ supported_bandwidths, v ≤ e)) ∧
    hackrf_compute_baseband_filter_bw_round_down_lt 4000000 = some 3500000 ∧
    hackrf_compute_baseband_filter_bw_round_down_lt 1000000 = some 1750000 := by
  refine ⟨?_, by decide, by decide⟩
  have h0 : ∀ e ∈ supported_bandwidths, 1750000 ≤ e := by
    intro e he
    rw [mem_supported_bandwidths] at he
    omega
  have hmem : (1750000 : Nat) ∈ supported_bandwidths :=
    (mem_supported_bandwidths _).mpr (Or.inl rfl)
  unfold hackrf_compute_baseband_filter_bw_round_down_lt
  rcases max2837_ft_scan_cases r with ⟨h, hs⟩ | ⟨h, hs⟩ | ⟨h, hs⟩ | ⟨h, hs⟩ | ⟨h, hs⟩ | ⟨h, hs⟩ | ⟨h, hs⟩ | ⟨h, hs⟩ | ⟨h, hs⟩ | ⟨h, hs⟩ | ⟨h, hs⟩ | ⟨h, hs⟩ | ⟨h, hs⟩ | ⟨h, hs⟩ | ⟨h, hs⟩ | ⟨h, hs⟩ | ⟨h, hs⟩
  all_goals
    rw [hs]
    simp only [max2837_ft, ne_eq, OfNat.ofNat_ne_zero, one_ne_zero, not_false_eq_true,
      not_true_eq_false, if_true, if_false, Nat.reduceSub, List.getElem?_cons_succ,
      List.getElem?_cons_zero]
    refine ⟨_, rfl, (mem_supported_bandwidths _).mpr (by omega), ?_, ?_⟩
    · rintro ⟨e, he, hlt⟩
      have := h0 e he
      refine ⟨by omega, ?_⟩
      intro e1 he1 hlt1
      rw [mem_supported_bandwidths] at he1
      omega
    · intro hall
      have := hall 1750000 hmem
      refine ⟨by omega, ?_⟩
      intro e1 he1
      have := h0 e1 he1
      omega

/-- C9 (as stated, refuted): for the request 4.0 MHz the smallest supported
bandwidth that is at least the request is 5.0 MHz, but
`hackrf_compute_baseband_filter_bw` returns 3.5 MHz. -/
theorem baseband_filter_bw_4mhz_not_covering :
    hackrf_compute_baseband_filter_bw 4000000 = some 3500000 ∧
    4000000 ≤ 28000000 ∧
    5000000 ∈ supported_bandwidths ∧ 4000000 ≤ 5000000 ∧
    (∀ e ∈ supported_bandwidths, 4000000 ≤ e → 5000000 ≤ e) ∧
    hackrf_compute_baseband_filter_bw 4000000 ≠ some 5000000 := by
  decide

/-- C9 (amended): for every requested bandwidth `r` of at most 28 MHz,
`hackrf_compute_baseband_filter_bw r` returns a supported bandwidth `v`: the
largest supported bandwidth that is at most `r` when `r` is at least
1.75 MHz, and 1.75 MHz when `r` is below it; so it returns `r` itself when `r`
is supported; in particular 4.0 MHz gives 3.5 MHz and 1.75 MHz gives
1.75 MHz. -/
theorem baseband_filter_bw_largest_at_most (r : Nat) (hr : r ≤ 28000000) :
    (∃ v : Nat, hackrf_compute_baseband_filter_bw r = some v ∧
      v ∈ supported_bandwidths ∧
      (1750000 ≤ r → v ≤ r ∧ ∀ e ∈ supported_bandwidths, e ≤ r → e ≤ v) ∧
      (r < 1750000 → v = 1750000) ∧
      (r ∈ supported_bandwidths → v = r)) ∧
    hackrf_compute_baseband_filter_bw 4000000 = some 3500000 ∧
    hackrf_compute_baseband_filter_bw 1750000 = some 1750000 := by
  refine ⟨?_, by decide, by decide⟩
  unfold hackrf_compute_baseband_filter_bw
  rcases max2837_ft_scan_cases r with ⟨h, hs⟩ | ⟨h, hs⟩ | ⟨h, hs⟩ | ⟨h, hs⟩ | ⟨h, hs⟩ | ⟨h, hs⟩ | ⟨h, hs⟩ | ⟨h, hs⟩ | ⟨h, hs⟩ | ⟨h, hs⟩ | ⟨h, hs⟩ | ⟨h, hs⟩ | ⟨h, hs⟩ | ⟨h, hs⟩ | ⟨h, hs⟩ | ⟨h, hs⟩ | ⟨h, hs⟩
  all_goals
    first
    | omega
    | (rw [hs]
       simp only [max2837_ft, ne_eq, OfNat.ofNat_ne_zero, one_ne_zero, not_false_eq_true,
         not_true_eq_false, if_true, if_false, Nat.reduceSub, List.getElem?_cons_succ,
         List.getElem?_cons_zero]
       try split
       all_goals
         refine ⟨_, rfl, (mem_supported_bandwidths _).mpr (by omega), ?_, ?_, ?_⟩
         · intro _
           refine ⟨by omega, ?_⟩
           intro e1 he1 hle1
           rw [mem_supported_bandwidths] at he1
           omega
         · intro _
           omega
         · intro hm
           rw [mem_supported_bandwidths] at hm
           omega)

/-- Witness of C9 (amended): the request 4.0 MHz. -/
theorem baseband_filter_bw_largest_at_most_witness :
    (4000000 : Nat) ≤ 28000000 ∧
    hackrf_compute_baseband_filter_bw 4000000 = some 3500000 ∧
    hackrf_compute_baseband_filter_bw 1750000 = some 1750000 :=
  ⟨by decide, (baseband_filter_bw_largest_at_most 4000000 (by decide)).2⟩

/-! ### Frequency split -/

/-- C10 (as stated, refuted): the 64-bit frequency 4294967296000000 Hz
(2^32 MHz) is encoded as the components 0 and 0, which reconstruct 0. -/
theorem set_freq_split_truncates :
    (4294967296000000 : Nat) < 2 ^ 64 ∧
    hackrf_set_freq_params 4294967296000000 = { freq_mhz := 0, freq_hz := 0 } ∧
    (hackrf_set_freq_params 4294967296000000).freq_mhz * 1000000
      + (hackrf_set_freq_params 4294967296000000).freq_hz ≠ 4294967296000000 := by
  decide

/-- C10 (amended): for every frequency below 2^32 MHz (4294967296000000 Hz),
the two components `hackrf_set_freq` puts in its request are the quotient and
the remainder of the frequency by 1000000 and reconstruct it exactly; for
2450075000 Hz they are 2450 and 75000. -/
theorem set_freq_split (freq_hz : Nat) (h : freq_hz < 2 ^ 32 * 1000000) :
    (hackrf_set_freq_params freq_hz).freq_mhz * 1000000
      + (hackrf_set_freq_params freq_hz).freq_hz = freq_hz ∧
    (hackrf_set_freq_params freq_hz).freq_mhz = freq_hz / 1000000 ∧
    (hackrf_set_freq_params freq_hz).freq_hz = freq_hz % 1000000 ∧
    (hackrf_set_freq_params freq_hz).freq_mhz < 2 ^ 32 ∧
    (hackrf_set_freq_params freq_hz).freq_hz < 1000000 ∧
    (∀ (usb_result : Int) (w : World),
      calls_since w (hackrf_set_freq usb_result freq_hz w).2
        = [Call.control_transfer HACKRF_VENDOR_REQUEST_SET_FREQ 0 0
            [freq_hz / 1000000, freq_hz % 1000000]]) ∧
    hackrf_set_freq_params 2450075000 = { freq_mhz := 2450, freq_hz := 75000 } := by
  have h1 : (hackrf_set_freq_params freq_hz).freq_mhz = freq_hz / 1000000 := by
    simp only [hackrf_set_freq_params, FREQ_ONE_MHZ]
    omega
  have h2 : (hackrf_set_freq_params freq_hz).freq_hz = freq_hz % 1000000 := by
    simp only [hackrf_set_freq_params, FREQ_ONE_MHZ]
    omega
  refine ⟨?_, h1, h2, ?_, ?_, ?_, by decide⟩
  · rw [h1, h2]
    omega
  · rw [h1]
    omega
  · rw [h2]
    omega
  · intro usb_result w
    unfold hackrf_set_freq
    by_cases hu : usb_result < 8
    · simp [hu, h1, h2, calls_since, World.call]
    · simp [hu, h1, h2, calls_since, World.call]

/-- Witness of C10 (amended): 2450075000 Hz. -/
theorem set_freq_split_witness :
    (2450075000 : Nat) < 2 ^ 32 * 1000000 ∧
    (hackrf_set_freq_params 2450075000).freq_mhz * 1000000
      + (hackrf_set_freq_params 2450075000).freq_hz = 2450075000 ∧
    hackrf_set_freq_params 2450075000 = { freq_mhz := 2450, freq_hz := 75000 } :=
  ⟨by decide, (set_freq_split 2450075000 (by decide)).1,
   (set_freq_split 2450075000 (by decide)).2.2.2.2.2.2⟩

/-! ### Register writes -/

/-- C11: each register write returns `HACKRF_ERROR_INVALID_PARAM`, issuing no
request, exactly when the index is at or beyond its ceiling (32 for
`hackrf_max2837_write`, 256 for `hackrf_si5351c_write`, 31 for
`hackrf_rffc5071_write`) or the value is at or beyond its width (0x400 for
max2837, 256 for si5351c); every other pair issues exactly one request whose
two parameters are the value and the index unchanged, returning success iff
the transport reports 0; accepted pairs with the same request are equal;
index 31 is accepted on the 32-entry space and index 32 is not. -/
theorem register_write_bounds (usb_result : Int) (register_number value : Nat) (w : World) :
    (((hackrf_max2837_write usb_result register_number value w).1 = HACKRF_ERROR_INVALID_PARAM
        ↔ (register_number ≥ 32 ∨ value ≥ 0x400)) ∧
      ((register_number ≥ 32 ∨ value ≥ 0x400) →
        (hackrf_max2837_write usb_result register_number value w).2 = w) ∧
      (¬ (register_number ≥ 32 ∨ value ≥ 0x400) →
        calls_since w (hackrf_max2837_write usb_result register_number value w).2
          = [Call.control_transfer HACKRF_VENDOR_REQUEST_MAX2837_WRITE value register_number []] ∧
        ((hackrf_max2837_write usb_result register_number value w).1 = HACKRF_SUCCESS
          ↔ usb_result = 0))) ∧
    (((hackrf_si5351c_write usb_result register_number value w).1 = HACKRF_ERROR_INVALID_PARAM
        ↔ (register_number ≥ 256 ∨ value ≥ 256)) ∧
      ((register_number ≥ 256 ∨ value ≥ 256) →
        (hackrf_si5351c_write usb_result register_number value w).2 = w) ∧
      (¬ (register_number ≥ 256 ∨ value ≥ 256) →
        calls_since w (hackrf_si5351c_write usb_result register_number value w).2
          = [Call.control_transfer HACKRF_VENDOR_REQUEST_SI5351C_WRITE value register_number []] ∧
        ((hackrf_si5351c_write usb_result register_number value w).1 = HACKRF_SUCCESS
          ↔ usb_result = 0))) ∧
    (((hackrf_rffc5071_write usb_result register_number value w).1 = HACKRF_ERROR_INVALID_PARAM
        ↔ register_number ≥ 31) ∧
      (register_number ≥ 31 →
        (hackrf_rffc5071_write usb_result register_number value w).2 = w) ∧
      (¬ register_number ≥ 31 →
        calls_since w (hackrf_rffc5071_write usb_result register_number value w).2
          = [Call.control_transfer HACKRF_VENDOR_REQUEST_RFFC5071_WRITE value register_number []] ∧
        ((hackrf_rffc5071_write usb_result register_number value w).1 = HACKRF_SUCCESS
          ↔ usb_result = 0))) ∧
    (∀ (usb2 : Int) (register2 value2 : Nat),
      ¬ (register_number ≥ 32 ∨ value ≥ 0x400) → ¬ (register2 ≥ 32 ∨ value2 ≥ 0x400) →
      calls_since w (hackrf_max2837_write usb_result register_number value w).2
        = calls_since w (hackrf_max2837_write usb2 register2 value2 w).2 →
      register_number = register2 ∧ value = value2) ∧
    (∀ (usb2 : Int) (register2 value2 : Nat),
      ¬ (register_number ≥ 256 ∨ value ≥ 256) → ¬ (register2 ≥ 256 ∨ value2 ≥ 256) →
      calls_since w (hackrf_si5351c_write usb_result register_number value w).2
        = calls_since w (hackrf_si5351c_write usb2 register2 value2 w).2 →
      register_number = register2 ∧ value = value2) ∧
    (∀ (usb2 : Int) (register2 value2 : Nat),
      ¬ register_number ≥ 31 → ¬ register2 ≥ 31 →
      calls_since w (hackrf_rffc5071_write usb_result register_number value w).2
        = calls_since w (hackrf_rffc5071_write usb2 register2 value2 w).2 →
      register_number = register2 ∧ value = value2) ∧
    (value < 0x400 → (hackrf_max2837_write 0 31 value w).1 = HACKRF_SUCCESS) ∧
    (hackrf_max2837_write usb_result 32 value w).1 = HACKRF_ERROR_INVALID_PARAM := by
  refine ⟨?_, ?_, ?_, ?_, ?_, ?_, ?_, ?_⟩
  · unfold hackrf_max2837_write
    by_cases h1 : register_number ≥ 32 <;> by_cases h2 : value ≥ 0x400 <;>
      by_cases hu : usb_result = 0 <;> simp [h1, h2, hu, calls_since, World.call]
  · unfold hackrf_si5351c_write
    by_cases h1 : register_number ≥ 256 <;> by_cases h2 : value ≥ 256 <;>
      by_cases hu : usb_result = 0 <;> simp [h1, h2, hu, calls_since, World.call]
  · unfold hackrf_rffc5071_write
    by_cases h1 : register_number ≥ 31 <;>
      by_cases hu : usb_result = 0 <;> simp [h1, hu, calls_since, World.call]
  · intro usb2 register2 value2 ha hb
    unfold hackrf_max2837_write
    rw [not_or] at ha hb
    rw [if_neg ha.1, if_neg ha.2, if_neg hb.1, if_neg hb.2]
    by_cases hu : usb_result = 0 <;> by_cases hu2 : usb2 = 0 <;>
      simp [hu, hu2, calls_since, World.call] <;> exact fun a b => ⟨b, a⟩
  · intro usb2 register2 value2 ha hb
    unfold hackrf_si5351c_write
    rw [not_or] at ha hb
    rw [if_neg ha.1, if_neg ha.2, if_neg hb.1, if_neg hb.2]
    by_cases hu : usb_result = 0 <;> by_cases hu2 : usb2 = 0 <;>
      simp [hu, hu2, calls_since, World.call] <;> exact fun a b => ⟨b, a⟩
  · intro usb2 register2 value2 ha hb
    unfold hackrf_rffc5071_write
    rw [if_neg ha, if_neg hb]
    by_cases hu : usb_result = 0 <;> by_cases hu2 : usb2 = 0 <;>
      simp [hu, hu2, calls_since, World.call] <;> exact fun a b => ⟨b, a⟩
  · intro hv
    have hv2 : ¬ value ≥ 0x400 := by omega
    simp [hackrf_max2837_write, hv2]
  · simp [hackrf_max2837_write]

/-! ### A start whose submissions fail part-way -/

theorem prepare_transfers_loop_fails (submit : Nat → Int) (endpoint_address : Nat) :
    ∀ (k : Nat) (slots : List (Option libusb_transfer)) (unit : Nat) (w : World),
      (∀ i, i < k → submit (unit + i) = 0) → submit (unit + k) ≠ 0 →
      (∀ i, i ≤ k → ∃ t, slots[i]? = some (some t)) →
      ∃ slots1 : List (Option libusb_transfer),
        prepare_transfers_loop submit endpoint_address slots unit w
          = some (HACKRF_ERROR_LIBUSB, slots1,
              { w with calls := w.calls ++ submit_calls unit (k + 1) }) := by
  intro k
  induction k with
  | zero =>
      intro slots unit w _ hfail hslots
      obtain ⟨t, ht⟩ := hslots 0 (Nat.le_refl 0)
      cases slots with
      | nil => simp at ht
      | cons s rest =>
          simp only [List.getElem?_cons_zero, Option.some.injEq] at ht
          subst ht
          simp only [Nat.add_zero] at hfail
          refine ⟨some { t with endpoint := endpoint_address, callback := true } :: rest, ?_⟩
          simp [prepare_transfers_loop, hfail, submit_calls, World.call]
  | succ k ih =>
      intro slots unit w hok hfail hslots
      obtain ⟨t, ht⟩ := hslots 0 (Nat.zero_le _)
      cases slots with
      | nil => simp at ht
      | cons s rest =>
          simp only [List.getElem?_cons_zero, Option.some.injEq] at ht
          subst ht
          have h0 : submit unit = 0 := by simpa using hok 0 (Nat.succ_pos k)
          have hok1 : ∀ i, i < k → submit (unit + 1 + i) = 0 := by
            intro i hi
            have := hok (i + 1) (Nat.succ_lt_succ hi)
            rwa [show unit + (i + 1) = unit + 1 + i by omega] at this
          have hfail1 : submit (unit + 1 + k) ≠ 0 := by
            rwa [show unit + (k + 1) = unit + 1 + k by omega] at hfail
          have hslots1 : ∀ i, i ≤ k → ∃ t1, rest[i]? = some (some t1) := by
            intro i hi
            have := hslots (i + 1) (Nat.succ_le_succ hi)
            simpa using this
          obtain ⟨slots1, h1⟩ :=
            ih rest (unit + 1) (w.call (Call.submit_transfer unit)) hok1 hfail1 hslots1
          refine ⟨some { t with endpoint := endpoint_address, callback := true } :: slots1, ?_⟩
          simp only [prepare_transfers_loop, h0, ne_eq, not_true_eq_false, if_false, h1]
          simp [World.call, submit_calls]

theorem create_transfer_thread_submit_failure (k : Nat) (submit : Nat → Int)
    (create_result : Int) (endpoint_address : Nat) (callback : Option Nat)
    (slots : List (Option libusb_transfer)) (w : World)
    (hs : w.device.transfer_thread_started = false)
    (ht : w.device.transfers = some slots)
    (hslots : ∀ i, i ≤ k → ∃ t, slots[i]? = some (some t))
    (hok : ∀ i, i < k → submit i = 0) (hfail : submit k ≠ 0) :
    ∃ w1 : World,
      create_transfer_thread submit create_result endpoint_address callback w
        = some (HACKRF_ERROR_LIBUSB, w1) ∧
      w1.device.transfer_thread_started = false ∧
      w1.device.streaming = false ∧
      w1.calls = w.calls ++ submit_calls 0 (k + 1) ∧
      w1.do_exit = w.do_exit := by
  have hok0 : ∀ i, i < k → submit (0 + i) = 0 := by
    intro i hi
    rw [Nat.zero_add]
    exact hok i hi
  have hfail0 : submit (0 + k) ≠ 0 := by
    rw [Nat.zero_add]
    exact hfail
  obtain ⟨d, e, c⟩ := w
  obtain ⟨tr, cb, st, tc, bs, str, rx, tx⟩ := d
  simp only at hs ht
  subst hs ht
  obtain ⟨slots1, h1⟩ := prepare_transfers_loop_fails submit endpoint_address k slots 0
    { device :=
        { transfers := some slots, callback := cb, transfer_thread_started := false,
          transfer_count := tc, buffer_size := bs, streaming := false, rx_ctx := rx,
          tx_ctx := tx }
      do_exit := e
      calls := c } hok0 hfail0 hslots
  refine ⟨{ device :=
              { transfers := some slots1, callback := cb, transfer_thread_started := false,
                transfer_count := tc, buffer_size := bs, streaming := false, rx_ctx := rx,
                tx_ctx := tx }
            do_exit := e
            calls := c ++ submit_calls 0 (k + 1) }, ?_, rfl, rfl, rfl, rfl⟩
  simp [create_transfer_thread, prepare_transfers, h1]

theorem slot_allocated (slots : List (Option libusb_transfer)) (k : Nat)
    (hall : ∀ s ∈ slots, s ≠ none) (hk : k < slots.length) :
    ∀ i, i ≤ k → ∃ t, slots[i]? = some (some t) := by
  intro i hi
  have hlt : i < slots.length := Nat.lt_of_le_of_lt hi hk
  have hne := hall slots[i] (List.getElem_mem hlt)
  cases hsl : slots[i] with
  | none => exact absurd hsl hne
  | some t => exact ⟨t, by rw [List.getElem?_eq_getElem hlt, hsl]⟩

/-- C12 (as stated, refuted): on the freshly opened session a start in which
units 0 and 1 are submitted and the submission of unit 2 fails returns the
transport error; the stop that follows makes the mode-off command its only
call and requests cancellation of neither unit 0 nor unit 1. -/
theorem stop_after_failed_start_no_cancel :
    (hackrf_start_rx 0 submit_fails_at_2 0 (some 7) (some 1) opened_world).map Prod.fst
      = some HACKRF_ERROR_LIBUSB ∧
    (hackrf_start_rx 0 submit_fails_at_2 0 (some 7) (some 1) opened_world).map
        (fun r => calls_since opened_world r.2)
      = some [Call.control_transfer 1 1 0 [], Call.submit_transfer 0, Call.submit_transfer 1,
              Call.submit_transfer 2] ∧
    (hackrf_start_rx 0 submit_fails_at_2 0 (some 7) (some 1) opened_world).map
        (fun r => (r.2.device.transfer_thread_started, r.2.device.streaming))
      = some (false, false) ∧
    (hackrf_start_rx 0 submit_fails_at_2 0 (some 7) (some 1) opened_world).map
        (fun r => calls_since r.2 (hackrf_stop_rx 0 0 r.2).2)
      = some [Call.control_transfer 1 0 0 []] ∧
    (hackrf_start_rx 0 submit_fails_at_2 0 (some 7) (some 1) opened_world).map
        (fun r => decide (Call.cancel_transfer 0 ∈ calls_since r.2 (hackrf_stop_rx 0 0 r.2).2))
      = some false ∧
    (hackrf_start_rx 0 submit_fails_at_2 0 (some 7) (some 1) opened_world).map
        (fun r => decide (Call.cancel_transfer 1 ∈ calls_since r.2 (hackrf_stop_rx 0 0 r.2).2))
      = some false := by
  decide

/-- C12 (amended): on a session with no worker started whose pool is allocated
with more than `k` units, a start (receive or transmit, the mode command
succeeding) in which the submissions of units 0 to `k - 1` succeed and the
submission of unit `k` fails returns the transport error after exactly those
`k + 1` submission calls, with worker-started and streaming-active both false;
a stop that follows finds no worker started: it sets `do_exit`, leaves the
session record as it is and makes the mode-off command its only call, so it
requests no cancellation. -/
theorem start_submit_failure_then_stop (k : Nat) (submit : Nat → Int) (create_result : Int)
    (callback ctx : Option Nat) (slots : List (Option libusb_transfer)) (w : World)
    (hs : w.device.transfer_thread_started = false)
    (ht : w.device.transfers = some slots)
    (hall : ∀ s ∈ slots, s ≠ none) (hk : k < slots.length)
    (hok : ∀ i, i < k → submit i = 0) (hfail : submit k ≠ 0) :
    (∃ w1 : World,
      hackrf_start_rx 0 submit create_result callback ctx w = some (HACKRF_ERROR_LIBUSB, w1) ∧
      w1.device.transfer_thread_started = false ∧
      w1.device.streaming = false ∧
      calls_since w w1
        = Call.control_transfer HACKRF_VENDOR_REQUEST_SET_TRANSCEIVER_MODE
            HACKRF_TRANSCEIVER_MODE_RECEIVE 0 [] :: submit_calls 0 (k + 1) ∧
      ∀ join_result usb_result : Int,
        calls_since w1 (hackrf_stop_rx join_result usb_result w1).2
          = [Call.control_transfer HACKRF_VENDOR_REQUEST_SET_TRANSCEIVER_MODE
              HACKRF_TRANSCEIVER_MODE_OFF 0 []] ∧
        (calls_since w1 (hackrf_stop_rx join_result usb_result w1).2).any Call.is_cancel = false ∧
        (hackrf_stop_rx join_result usb_result w1).2.device = w1.device ∧
        (hackrf_stop_rx join_result usb_result w1).2.do_exit = true) ∧
    (∃ w1 : World,
      hackrf_start_tx 0 submit create_result callback ctx w = some (HACKRF_ERROR_LIBUSB, w1) ∧
      w1.device.transfer_thread_started = false ∧
      w1.device.streaming = false ∧
      calls_since w w1
        = Call.control_transfer HACKRF_VENDOR_REQUEST_SET_TRANSCEIVER_MODE
            HACKRF_TRANSCEIVER_MODE_TRANSMIT 0 [] :: submit_calls 0 (k + 1) ∧
      ∀ join_result usb_result : Int,
        calls_since w1 (hackrf_stop_tx join_result usb_result w1).2
          = [Call.control_transfer HACKRF_VENDOR_REQUEST_SET_TRANSCEIVER_MODE
              HACKRF_TRANSCEIVER_MODE_OFF 0 []] ∧
        (calls_since w1 (hackrf_stop_tx join_result usb_result w1).2).any Call.is_cancel = false ∧
        (hackrf_stop_tx join_result usb_result w1).2.device = w1.device ∧
        (hackrf_stop_tx join_result usb_result w1).2.do_exit = true) := by
  have hslots := slot_allocated slots k hall hk
  constructor
  · obtain ⟨w1, h1, h2, h3, h4, _⟩ :=
      create_transfer_thread_submit_failure k submit create_result (LIBUSB_ENDPOINT_IN ||| 1)
        callback slots
        { (w.call (Call.control_transfer HACKRF_VENDOR_REQUEST_SET_TRANSCEIVER_MODE
            HACKRF_TRANSCEIVER_MODE_RECEIVE 0 [])) with
          device := { w.device with rx_ctx := ctx } } hs ht hslots hok hfail
    refine ⟨w1, ?_, h2, h3, ?_, ?_⟩
    · simp only [hackrf_start_rx, hackrf_set_transceiver_mode]
      simpa using h1
    · simp [calls_since, h4, World.call]
    · intro join_result usb_result
      by_cases hu : usb_result = 0 <;>
        simp [hackrf_stop_rx, kill_transfer_thread, request_exit, h2,
          hackrf_set_transceiver_mode, World.call, calls_since, hu, Call.is_cancel]
  · obtain ⟨w1, h1, h2, h3, h4, _⟩ :=
      create_transfer_thread_submit_failure k submit create_result (LIBUSB_ENDPOINT_OUT ||| 2)
        callback slots
        { (w.call (Call.control_transfer HACKRF_VENDOR_REQUEST_SET_TRANSCEIVER_MODE
            HACKRF_TRANSCEIVER_MODE_TRANSMIT 0 [])) with
          device := { w.device with tx_ctx := ctx } } hs ht hslots hok hfail
    refine ⟨w1, ?_, h2, h3, ?_, ?_⟩
    · simp only [hackrf_start_tx, hackrf_set_transceiver_mode]
      simpa using h1
    · simp [calls_since, h4, World.call]
    · intro join_result usb_result
      by_cases hu : usb_result = 0 <;>
        simp [hackrf_stop_tx, kill_transfer_thread, request_exit, h2,
          hackrf_set_transceiver_mode, World.call, calls_since, hu, Call.is_cancel]

/-- Witness of C12 (amended): the freshly opened session, units 0 and 1
submitted, the submission of unit 2 failing. -/
theorem start_submit_failure_then_stop_witness :
    ∃ w1 : World,
      hackrf_start_rx 0 submit_fails_at_2 0 (some 7) (some 1) opened_world
        = some (HACKRF_ERROR_LIBUSB, w1) ∧
      w1.device.transfer_thread_started = false ∧
      w1.device.streaming = false ∧
      calls_since opened_world w1
        = [Call.control_transfer 1 1 0 [], Call.submit_transfer 0, Call.submit_transfer 1,
           Call.submit_transfer 2] := by
  obtain ⟨⟨w1, h1, h2, h3, h4, _⟩, _⟩ :=
    start_submit_failure_then_stop 2 submit_fails_at_2 0 (some 7) (some 1)
      [some idle_unit, some idle_unit, some idle_unit, some idle_unit] opened_world
      rfl rfl (by decide) (by decide) (by decide) (by decide)
  exact ⟨w1, h1, h2, h3, h4⟩

/-! ### The bandwidth selectors over the whole input range -/

/-- C13 (the code at the failing input): for the 32-bit request 30 MHz, and
for every request above 28 MHz, `hackrf_compute_baseband_filter_bw` returns
the terminating 0 entry of the table, which is not a supported bandwidth,
where `hackrf_compute_baseband_filter_bw_round_down_lt` returns 28 MHz.  The
rest of the claim holds: the scan stops inside the 17-entry table for every
request, `hackrf_compute_baseband_filter_bw_round_down_lt` returns a supported
bandwidth for every request, and `hackrf_compute_baseband_filter_bw` does for
every request of at most 28 MHz. -/
theorem baseband_filter_bw_returns_sentinel :
    (30000000 : Nat) < 2 ^ 32 ∧
    hackrf_compute_baseband_filter_bw 30000000 = some 0 ∧
    0 ∉ supported_bandwidths ∧
    hackrf_compute_baseband_filter_bw_round_down_lt 30000000 = some 28000000 ∧
    (∀ r : Nat, 28000000 < r → hackrf_compute_baseband_filter_bw r = some 0) ∧
    (∀ r : Nat, ∃ p : Nat, max2837_ft_scan r max2837_ft 0 = some p ∧ p < max2837_ft.length) ∧
    (∀ r : Nat, ∃ v : Nat,
      hackrf_compute_baseband_filter_bw_round_down_lt r = some v ∧ v ∈ supported_bandwidths) ∧
    (∀ r : Nat, r ≤ 28000000 → ∃ v : Nat,
      hackrf_compute_baseband_filter_bw r = some v ∧ v ∈ supported_bandwidths) := by
  refine ⟨by decide, by decide, by decide, by decide, ?_, ?_, ?_, ?_⟩
  · intro r hr
    unfold hackrf_compute_baseband_filter_bw
    rcases max2837_ft_scan_cases r with ⟨h, hs⟩ | ⟨h, hs⟩ | ⟨h, hs⟩ | ⟨h, hs⟩ | ⟨h, hs⟩ | ⟨h, hs⟩ | ⟨h, hs⟩ | ⟨h, hs⟩ | ⟨h, hs⟩ | ⟨h, hs⟩ | ⟨h, hs⟩ | ⟨h, hs⟩ | ⟨h, hs⟩ | ⟨h, hs⟩ | ⟨h, hs⟩ | ⟨h, hs⟩ | ⟨h, hs⟩
    all_goals
      first
      | omega
      | (rw [hs]
         simp [max2837_ft])
  · intro r
    rcases max2837_ft_scan_cases r with ⟨h, hs⟩ | ⟨h, hs⟩ | ⟨h, hs⟩ | ⟨h, hs⟩ | ⟨h, hs⟩ | ⟨h, hs⟩ | ⟨h, hs⟩ | ⟨h, hs⟩ | ⟨h, hs⟩ | ⟨h, hs⟩ | ⟨h, hs⟩ | ⟨h, hs⟩ | ⟨h, hs⟩ | ⟨h, hs⟩ | ⟨h, hs⟩ | ⟨h, hs⟩ | ⟨h, hs⟩
    all_goals exact ⟨_, hs, by decide⟩
  · intro r
    unfold hackrf_compute_baseband_filter_bw_round_down_lt
    rcases max2837_ft_scan_cases r with ⟨h, hs⟩ | ⟨h, hs⟩ | ⟨h, hs⟩ | ⟨h, hs⟩ | ⟨h, hs⟩ | ⟨h, hs⟩ | ⟨h, hs⟩ | ⟨h, hs⟩ | ⟨h, hs⟩ | ⟨h, hs⟩ | ⟨h, hs⟩ | ⟨h, hs⟩ | ⟨h, hs⟩ | ⟨h, hs⟩ | ⟨h, hs⟩ | ⟨h, hs⟩ | ⟨h, hs⟩
    all_goals
      rw [hs]
      simp only [max2837_ft, ne_eq, OfNat.ofNat_ne_zero, one_ne_zero, not_false_eq_true,
        not_true_eq_false, if_true, if_false, Nat.reduceSub, List.getElem?_cons_succ,
        List.getElem?_cons_zero]
      exact ⟨_, rfl, (mem_supported_bandwidths _).mpr (by omega)⟩
  · intro r hr
    unfold hackrf_compute_baseband_filter_bw
    rcases max2837_ft_scan_cases r with ⟨h, hs⟩ | ⟨h, hs⟩ | ⟨h, hs⟩ | ⟨h, hs⟩ | ⟨h, hs⟩ | ⟨h, hs⟩ | ⟨h, hs⟩ | ⟨h, hs⟩ | ⟨h, hs⟩ | ⟨h, hs⟩ | ⟨h, hs⟩ | ⟨h, hs⟩ | ⟨h, hs⟩ | ⟨h, hs⟩ | ⟨h, hs⟩ | ⟨h, hs⟩ | ⟨h, hs⟩
    all_goals
      first
      | omega
      | (rw [hs]
         simp only [max2837_ft, ne_eq, OfNat.ofNat_ne_zero, one_ne_zero, not_false_eq_true,
           not_true_eq_false, if_true, if_false, Nat.reduceSub, List.getElem?_cons_succ,
           List.getElem?_cons_zero]
         try split
         all_goals exact ⟨_, rfl, (mem_supported_bandwidths _).mpr (by omega)⟩)

end Hackrf
